import Mathlib

/-!
# Laufiso2000/tools: OpenCL capability reporter and perf-counter helper

A shallow embedding of

* `src/hardwareInfo/getInfo.c` (namespace `GetInfo`),
* `src/utilities_opencl/opencl_utils.c` (namespace `OpenclUtils`),
* `src/utilities_opencl/performance_tools.c` (namespace `PerformanceTools`).

Data model (LP64 Linux, the ABI under which `long` has 64 bits): `int`, `cl_int`
are 32-bit signed, `cl_uint`, `cl_bool` and the OpenCL enumerations are 32-bit
unsigned, `cl_ulong`, `size_t`, `unsigned long` and pointers are 64-bit.
Machine integers are `Nat`/`Int` with explicit reduction modulo `2^32`/`2^64`.

The OpenCL driver is an environment: a function that answers every API call
with a status, a returned size and the values it stores into the caller's
buffer.  The same environment decides what `malloc` returns (a block or
`NULL`) and what an object holds that was never written.  A program is a
state-passing function over the trace of observable events (API calls, writes
to standard output, writes to standard error, `exit`).  `free` has no
observable effect.

In `query_device_info` the array `NDrange` is declared `size_t* NDrange[3]`;
the driver stores three `size_t` values into its 24 bytes, and each element is
then passed to `printf` for a `%d` conversion.
-/

namespace CL

/-! ## Constants of the Khronos header `CL/cl.h` (not part of the repository) -/

def CL_SUCCESS : Int := 0
def CL_DEVICE_NOT_FOUND : Int := -1
def CL_DEVICE_NOT_AVAILABLE : Int := -2
def CL_MEM_OBJECT_ALLOCATION_FAILURE : Int := -4
def CL_OUT_OF_RESOURCES : Int := -5
def CL_OUT_OF_HOST_MEMORY : Int := -6
def CL_MISALIGNED_SUB_BUFFER_OFFSET : Int := -13
def CL_EXEC_STATUS_ERROR_FOR_EVENTS_IN_WAIT_LIST : Int := -14
def CL_INVALID_VALUE : Int := -30
def CL_INVALID_DEVICE_TYPE : Int := -31
def CL_INVALID_PLATFORM : Int := -32
def CL_INVALID_DEVICE : Int := -33
def CL_INVALID_CONTEXT : Int := -34
def CL_INVALID_QUEUE_PROPERTIES : Int := -35
def CL_INVALID_COMMAND_QUEUE : Int := -36
def CL_INVALID_HOST_PTR : Int := -37
def CL_INVALID_MEM_OBJECT : Int := -38
def CL_INVALID_PROGRAM : Int := -44
def CL_INVALID_PROGRAM_EXECUTABLE : Int := -45
def CL_INVALID_KERNEL_NAME : Int := -46
def CL_INVALID_KERNEL_DEFINITION : Int := -47
def CL_INVALID_EVENT_WAIT_LIST : Int := -57
def CL_INVALID_OPERATION : Int := -59
def CL_INVALID_BUFFER_SIZE : Int := -61
def CL_INVALID_PROPERTY : Int := -64

def CL_PLATFORM_PROFILE : Nat := 0x0900
def CL_PLATFORM_VERSION : Nat := 0x0901
def CL_PLATFORM_NAME : Nat := 0x0902
def CL_PLATFORM_VENDOR : Nat := 0x0903
def CL_PLATFORM_EXTENSIONS : Nat := 0x0904

def CL_DEVICE_TYPE_ACCELERATOR : Nat := 8

def CL_DEVICE_MAX_WORK_ITEM_DIMENSIONS : Nat := 0x1003
def CL_DEVICE_MAX_WORK_GROUP_SIZE : Nat := 0x1004
def CL_DEVICE_MAX_WORK_ITEM_SIZES : Nat := 0x1005
def CL_DEVICE_ADDRESS_BITS : Nat := 0x100D
def CL_DEVICE_MAX_MEM_ALLOC_SIZE : Nat := 0x1010
def CL_DEVICE_IMAGE_SUPPORT : Nat := 0x1016
def CL_DEVICE_MAX_PARAMETER_SIZE : Nat := 0x1017
def CL_DEVICE_GLOBAL_MEM_CACHE_TYPE : Nat := 0x101C
def CL_DEVICE_GLOBAL_MEM_CACHELINE_SIZE : Nat := 0x101D
def CL_DEVICE_GLOBAL_MEM_CACHE_SIZE : Nat := 0x101E
def CL_DEVICE_MAX_CONSTANT_BUFFER_SIZE : Nat := 0x1020
def CL_DEVICE_MAX_CONSTANT_ARGS : Nat := 0x1021
def CL_DEVICE_LOCAL_MEM_TYPE : Nat := 0x1022
def CL_DEVICE_LOCAL_MEM_SIZE : Nat := 0x1023
def CL_DEVICE_ENDIAN_LITTLE : Nat := 0x1026
def CL_DEVICE_NAME : Nat := 0x102B
def CL_DRIVER_VERSION : Nat := 0x102D
def CL_DEVICE_PROFILE : Nat := 0x102E
def CL_DEVICE_VERSION : Nat := 0x102F
def CL_DEVICE_EXTENSIONS : Nat := 0x1030

def CL_NONE : Nat := 0
def CL_READ_ONLY_CACHE : Nat := 1
def CL_READ_WRITE_CACHE : Nat := 2
def CL_LOCAL : Nat := 1
def CL_GLOBAL : Nat := 2
def CL_TRUE : Nat := 1
def CL_FALSE : Nat := 0

/-- The 25 status codes that have a `CASE_CL_ERROR` line in `opencl_error_to_str`,
in ascending order of magnitude. -/
def knownCodes : List Int :=
  [CL_SUCCESS, CL_DEVICE_NOT_FOUND, CL_DEVICE_NOT_AVAILABLE,
   CL_MEM_OBJECT_ALLOCATION_FAILURE, CL_OUT_OF_RESOURCES, CL_OUT_OF_HOST_MEMORY,
   CL_MISALIGNED_SUB_BUFFER_OFFSET, CL_EXEC_STATUS_ERROR_FOR_EVENTS_IN_WAIT_LIST,
   CL_INVALID_VALUE, CL_INVALID_DEVICE_TYPE, CL_INVALID_PLATFORM, CL_INVALID_DEVICE,
   CL_INVALID_CONTEXT, CL_INVALID_QUEUE_PROPERTIES, CL_INVALID_COMMAND_QUEUE,
   CL_INVALID_HOST_PTR, CL_INVALID_MEM_OBJECT, CL_INVALID_PROGRAM,
   CL_INVALID_PROGRAM_EXECUTABLE, CL_INVALID_KERNEL_NAME, CL_INVALID_KERNEL_DEFINITION,
   CL_INVALID_EVENT_WAIT_LIST, CL_INVALID_OPERATION, CL_INVALID_BUFFER_SIZE,
   CL_INVALID_PROPERTY]

/-! ## Machine integers -/

/-- Range of a 32-bit signed `int` / `cl_int`. -/
def isInt32 (v : Int) : Prop := -2147483648 ≤ v ∧ v < 2147483648

instance (v : Int) : Decidable (isInt32 v) := by unfold isInt32; infer_instance

/-- Conversion of an integer to `int`: the low 32 bits, read as two's complement. -/
def toInt32 (v : Int) : Int :=
  if v % 4294967296 < 2147483648 then v % 4294967296 else v % 4294967296 - 4294967296

/-- Conversion to `cl_uint` / a 32-bit enumeration. -/
def toUInt32 (v : Nat) : Nat := v % 4294967296

/-- Conversion to `cl_ulong` / `size_t` / `unsigned long`. -/
def toUInt64 (v : Nat) : Nat := v % 18446744073709551616


/-! ## The driver and the observable trace -/

/-- A request to the environment.  The first six are the OpenCL API calls as the
driver sees them: the entry point and its argument values; a buffer argument is
`none` for `NULL` and `some n` for a buffer of `n` bytes, a remaining pointer
argument is `false` for `NULL`.  The last two are not API calls and leave no
event: `malloc size` asks for a block, and `uninitialised object index` asks
for the indeterminate content of an object that has not been written. -/
inductive Call where
  | clGetPlatformIDs (num_entries : Nat) (platforms : Option Nat) (num_platforms : Bool)
  | clGetPlatformInfo (platform param_name param_value_size : Nat)
      (param_value : Option Nat) (param_value_size_ret : Bool)
  | clGetDeviceIDs (platform device_type num_entries : Nat) (devices : Option Nat)
      (num_devices : Bool)
  | clGetDeviceInfo (device param_name param_value_size : Nat)
      (param_value : Option Nat) (param_value_size_ret : Bool)
  | clCreateContext (properties : Bool) (num_devices : Nat) (devices : List Nat)
      (pfn_notify user_data errcode_ret : Bool)
  | clCreateCommandQueue (context device properties : Nat) (errcode_ret : Bool)
  | malloc (size : Nat)
  | uninitialised (object : String) (index : Nat)
  deriving DecidableEq, Repr

/-- What the driver does on one call: `status` is the returned `cl_int` (for the
two `clCreate*` entry points, the code stored through `errcode_ret`), `size_ret`
is stored through the size/count out-pointer, `data` is what it stores into
the buffer, from its start (one entry per byte of a string attribute, one
entry per scalar otherwise; it may store less than the buffer holds, or
nothing) and `handle` is the object returned by a `clCreate*` call.  For
`malloc`, `handle` is the pointer returned (0 for `NULL`) and `data` the
indeterminate bytes found in memory from that address on; for `uninitialised`,
`handle` is the indeterminate content. -/
structure Answer where
  status : Int
  size_ret : Nat
  data : List Nat
  handle : Nat
  deriving DecidableEq, Repr

/-- A mock driver: an assignment of an answer to each call, by its position in
the run and its arguments. -/
abbrev Driver : Type := Nat → Call → Answer

/-- Observable events of a run, in program order. -/
inductive Event where
  | call (c : Call) (a : Answer)
  | stdout (s : String)
  | stderr (s : String)
  | exit (code : Int)
  deriving DecidableEq, Repr

/-- Number of API calls made so far. -/
def numCalls : List Event → Nat
  | [] => 0
  | Event.call _ _ :: t => numCalls t + 1
  | _ :: t => numCalls t

/-- The API calls of a trace with their answers, in order. -/
def callsOf : List Event → List (Call × Answer)
  | [] => []
  | Event.call c a :: t => (c, a) :: callsOf t
  | _ :: t => callsOf t

/-- The chunks written to standard output, one per `printf`, in order. -/
def stdoutOf : List Event → List String
  | [] => []
  | Event.stdout s :: t => s :: stdoutOf t
  | _ :: t => stdoutOf t

/-- The chunks written to standard error, in order. -/
def stderrOf : List Event → List String
  | [] => []
  | Event.stderr s :: t => s :: stderrOf t
  | _ :: t => stderrOf t

/-- The codes passed to `exit`, in order (at most one in any run). -/
def exitsOf : List Event → List Int
  | [] => []
  | Event.exit c :: t => c :: exitsOf t
  | _ :: t => exitsOf t

/-- The text on standard output: the chunks concatenated. -/
def stdoutText (t : List Event) : String := String.join (stdoutOf t)

/-- Outcome of running a piece of code: it returns a value, or the process has
called `exit`; either way with the trace so far. -/
inductive Result (α : Type) where
  | ok (val : α) (trace : List Event)
  | exited (trace : List Event)

/-- The trace of an outcome. -/
def Result.trace {α : Type} : Result α → List Event
  | Result.ok _ t => t
  | Result.exited t => t

/-- Whether the code returned to its caller. -/
def Result.returned {α : Type} : Result α → Bool
  | Result.ok _ _ => true
  | Result.exited _ => false

/-- A piece of C code acting on the driver and the trace. -/
def Prog (α : Type) : Type := Driver → List Event → Result α

/-- Sequencing: what follows a call to `exit` does not run. -/
def Prog.bind {α β : Type} (p : Prog α) (f : α → Prog β) : Prog β := fun d t =>
  match p d t with
  | Result.ok a t1 => f a d t1
  | Result.exited t1 => Result.exited t1

/-- Code without effect. -/
def Prog.pure {α : Type} (a : α) : Prog α := fun _ t => Result.ok a t

instance : Monad Prog where
  pure := Prog.pure
  bind := Prog.bind

/-- Run from the empty trace. -/
def run {α : Type} (p : Prog α) (d : Driver) : Result α := p d []

/-- An API call: the driver answers by position and arguments. -/
def apiCall (c : Call) : Prog Answer := fun d t =>
  Result.ok (d (numCalls t) c) (t ++ [Event.call c (d (numCalls t) c)])

/-- Model of `printf` with the formatted text. -/
def printf (s : String) : Prog Unit := fun _ t => Result.ok () (t ++ [Event.stdout s])

/-- Model of `fprintf(stderr, ...)` with the formatted text. -/
def fprintf_stderr (s : String) : Prog Unit := fun _ t =>
  Result.ok () (t ++ [Event.stderr s])

/-- Model of `exit(code)`. -/
def exit {α : Type} (code : Int) : Prog α := fun _ t =>
  Result.exited (t ++ [Event.exit code])

/-- Loop `for (i = lo; i < lo + count; i++) body(i)`, where `σ` holds the
variables the body assigns and the code after the loop can read. -/
def forLoop {σ : Type} (body : Nat → σ → Prog σ) : Nat → Nat → σ → Prog σ
  | _, 0, s => Prog.pure s
  | i, count + 1, s => Prog.bind (body i s) (fun s1 => forLoop body (i + 1) count s1)

/-- Model of `malloc(size)`: the pointer as a buffer argument (`none` for `NULL`,
`some size` for a block of `size` bytes) and the indeterminate bytes found in
memory from the address of the block on.  The code does not test the pointer. -/
def malloc (size : Nat) : Prog (Option Nat × List Nat) := fun d t =>
  Result.ok (if (d (numCalls t) (Call.malloc size)).handle = 0 then none else some size,
    (d (numCalls t) (Call.malloc size)).data) t

/-- The indeterminate content of the element `index` of the local `object`
at its declaration. -/
def uninitialised (object : String) (index : Nat) : Prog Nat := fun d t =>
  Result.ok (d 0 (Call.uninitialised object index)).handle t

/-- The bytes in memory from the start of a block once the driver has stored
`stored` there: the stored bytes, then what was there before. -/
def memoryAfter (stored before : List Nat) : List Nat :=
  stored ++ before.drop stored.length

/-- The C string that starts a sequence of bytes in memory: the characters
before the first NUL. -/
def cstr (bytes : List Nat) : String :=
  String.mk ((bytes.takeWhile (fun b => b ≠ 0)).map Char.ofNat)

/-- What `%s` prints for the pointer `p` when `memory` are the bytes from its
address on: the C string there, which runs past the bytes the driver stored
when these hold no NUL; for `NULL` the C library prints `(null)`. -/
def fmt_s (p : Option Nat) (memory : List Nat) : String :=
  match p with
  | none => "(null)"
  | some _ => cstr memory

/-- What `%d` prints for an `int`. -/
def fmt_d (v : Int) : String := toString v

/-- What `%lu` prints for an `unsigned long`. -/
def fmt_lu (v : Nat) : String := toString v

/-- What `%d` prints when the argument passed is a 64-bit word (a pointer or a
`size_t`): the variadic slot is read as `int`, that is its low 32 bits.  (C
leaves this undefined; it is what the LP64 calling convention does, and what
an ILP32 target does with its 32-bit word.) -/
def fmt_d_word (w : Nat) : String := fmt_d (toInt32 (toUInt64 w))

/-- The element `i` of the variable the driver was given as buffer, after the
call: the value the driver stored there, or else `before`, what the variable
held before the call. -/
def Answer.stored (a : Answer) (i : Nat) (before : Nat) : Nat := a.data.getD i before


/-- Entry point `clGetPlatformIDs`. -/
def clGetPlatformIDs (num_entries : Nat) (platforms : Option Nat) (num_platforms : Bool) :
    Prog Answer :=
  apiCall (Call.clGetPlatformIDs num_entries platforms num_platforms)

/-- Entry point `clGetPlatformInfo`. -/
def clGetPlatformInfo (platform param_name param_value_size : Nat)
    (param_value : Option Nat) (param_value_size_ret : Bool) : Prog Answer :=
  apiCall (Call.clGetPlatformInfo platform param_name param_value_size param_value
    param_value_size_ret)

/-- Entry point `clGetDeviceIDs`. -/
def clGetDeviceIDs (platform device_type num_entries : Nat) (devices : Option Nat)
    (num_devices : Bool) : Prog Answer :=
  apiCall (Call.clGetDeviceIDs platform device_type num_entries devices num_devices)

/-- Entry point `clGetDeviceInfo`. -/
def clGetDeviceInfo (device param_name param_value_size : Nat)
    (param_value : Option Nat) (param_value_size_ret : Bool) : Prog Answer :=
  apiCall (Call.clGetDeviceInfo device param_name param_value_size param_value
    param_value_size_ret)

/-- Entry point `clCreateContext`. -/
def clCreateContext (properties : Bool) (num_devices : Nat) (devices : List Nat)
    (pfn_notify user_data errcode_ret : Bool) : Prog Answer :=
  apiCall (Call.clCreateContext properties num_devices devices pfn_notify user_data
    errcode_ret)

/-- Entry point `clCreateCommandQueue`. -/
def clCreateCommandQueue (context device properties : Nat) (errcode_ret : Bool) :
    Prog Answer :=
  apiCall (Call.clCreateCommandQueue context device properties errcode_ret)

/-- Text of the diagnostic of `CHECK_STATUS`:
`"OpenCL error in file %s line %d, error code %s\n"`. -/
def diagnostic (file : String) (line : Nat) (name : String) : String :=
  "OpenCL error in file " ++ file ++ " line " ++ fmt_d line ++ ", error code " ++ name ++ "\n"

end CL

open CL

namespace OpenclUtils

/-- Function `opencl_error_to_str` of `opencl_utils.c` (lines 33-63): the `switch` over the
`CASE_CL_ERROR` lines, in source order; each case returns the stringified
identifier, `default` returns the sentinel. -/
def opencl_error_to_str (error : Int) : String :=
  if error = CL_SUCCESS then "CL_SUCCESS"
  else if error = CL_DEVICE_NOT_FOUND then "CL_DEVICE_NOT_FOUND"
  else if error = CL_DEVICE_NOT_AVAILABLE then "CL_DEVICE_NOT_AVAILABLE"
  else if error = CL_INVALID_VALUE then "CL_INVALID_VALUE"
  else if error = CL_OUT_OF_HOST_MEMORY then "CL_OUT_OF_HOST_MEMORY"
  else if error = CL_INVALID_PLATFORM then "CL_INVALID_PLATFORM"
  else if error = CL_INVALID_PROPERTY then "CL_INVALID_PROPERTY"
  else if error = CL_INVALID_DEVICE then "CL_INVALID_DEVICE"
  else if error = CL_INVALID_OPERATION then "CL_INVALID_OPERATION"
  else if error = CL_INVALID_PROGRAM then "CL_INVALID_PROGRAM"
  else if error = CL_INVALID_PROGRAM_EXECUTABLE then "CL_INVALID_PROGRAM_EXECUTABLE"
  else if error = CL_INVALID_KERNEL_NAME then "CL_INVALID_KERNEL_NAME"
  else if error = CL_INVALID_KERNEL_DEFINITION then "CL_INVALID_KERNEL_DEFINITION"
  else if error = CL_INVALID_CONTEXT then "CL_INVALID_CONTEXT"
  else if error = CL_INVALID_QUEUE_PROPERTIES then "CL_INVALID_QUEUE_PROPERTIES"
  else if error = CL_OUT_OF_RESOURCES then "CL_OUT_OF_RESOURCES"
  else if error = CL_INVALID_BUFFER_SIZE then "CL_INVALID_BUFFER_SIZE"
  else if error = CL_INVALID_HOST_PTR then "CL_INVALID_HOST_PTR"
  else if error = CL_MEM_OBJECT_ALLOCATION_FAILURE then "CL_MEM_OBJECT_ALLOCATION_FAILURE"
  else if error = CL_INVALID_DEVICE_TYPE then "CL_INVALID_DEVICE_TYPE"
  else if error = CL_INVALID_COMMAND_QUEUE then "CL_INVALID_COMMAND_QUEUE"
  else if error = CL_INVALID_MEM_OBJECT then "CL_INVALID_MEM_OBJECT"
  else if error = CL_INVALID_EVENT_WAIT_LIST then "CL_INVALID_EVENT_WAIT_LIST"
  else if error = CL_MISALIGNED_SUB_BUFFER_OFFSET then "CL_MISALIGNED_SUB_BUFFER_OFFSET"
  else if error = CL_EXEC_STATUS_ERROR_FOR_EVENTS_IN_WAIT_LIST then
    "CL_EXEC_STATUS_ERROR_FOR_EVENTS_IN_WAIT_LIST"
  else "UNKOWN ERROR CODE"

/-- Expansion of `__FILE__` in `opencl_utils.c`: the name the file is compiled under. -/
def FILE : String := "opencl_utils.c"

/-- Macro `CHECK_STATUS(status)`, expanded at source line `line`. -/
def CHECK_STATUS (line : Nat) (status : Int) : Prog Unit :=
  if status ≠ CL_SUCCESS then do
    fprintf_stderr (diagnostic FILE line (opencl_error_to_str status))
    exit 0
  else
    pure ()

/-- Function `query_platform_info` of `opencl_utils.c`. -/
def query_platform_info (platform : Nat) : Prog Unit := do
  let param_size ← uninitialised "param_size" 0
  let querySize : Nat := 5
  let infoStr : List String := ["Profile", "Version", "Name", "Vendor", "Extensions"]
  let param_name : List Nat := [CL_PLATFORM_PROFILE, CL_PLATFORM_VERSION, CL_PLATFORM_NAME,
    CL_PLATFORM_VENDOR, CL_PLATFORM_EXTENSIONS]
  printf "\n\n\nPlatform Info \n\n"
  let _ ← forLoop (fun i _ => do
    let r ← clGetPlatformInfo platform (param_name.getD i 0) 0 none true
    let err := r.status
    let param_size := toUInt64 r.size_ret
    CHECK_STATUS 97 err
    let block ← malloc param_size
    let param_value := block.1
    let r ← clGetPlatformInfo platform (param_name.getD i 0) param_size param_value false
    let err := r.status
    let memory := memoryAfter r.data block.2
    CHECK_STATUS 102 err
    printf (infoStr.getD i "" ++ ": " ++ fmt_s param_value memory ++ "\n")
    return param_size) 0 querySize param_size
  return ()

/-- Function `query_device_info` of `opencl_utils.c`. -/
def query_device_info (device : Nat) : Prog Unit := do
  let param_size ← uninitialised "param_size" 0
  let querySize : Nat := 5
  let infoStr : List String := ["Name", "Version", "Driver Version", "Profile", "Extensions"]
  let param_name : List Nat := [CL_DEVICE_NAME, CL_DEVICE_VERSION, CL_DRIVER_VERSION,
    CL_DEVICE_PROFILE, CL_DEVICE_EXTENSIONS]
  printf "\n\nDevice Info \n"
  let param_size ← forLoop (fun i _ => do
    let r ← clGetDeviceInfo device (param_name.getD i 0) 0 none true
    let err := r.status
    let param_size := toUInt64 r.size_ret
    CHECK_STATUS 146 err
    let block ← malloc param_size
    let param_value := block.1
    let r ← clGetDeviceInfo device (param_name.getD i 0) param_size param_value false
    let err := r.status
    let memory := memoryAfter r.data block.2
    CHECK_STATUS 151 err
    printf (infoStr.getD i "" ++ ": " ++ fmt_s param_value memory ++ "\n")
    return param_size) 0 querySize param_size
  printf "\n\nGlobal Memory Cache\n"
  let cacheSize ← uninitialised "cacheSize" 0
  let r ← clGetDeviceInfo device CL_DEVICE_GLOBAL_MEM_CACHE_SIZE 8 (some 8) false
  let err := r.status
  let cacheSize := toUInt64 (r.stored 0 cacheSize)
  CHECK_STATUS 165 err
  printf ("\n\tSize: " ++ fmt_lu cacheSize ++ "\n")
  let cacheType ← uninitialised "cacheType" 0
  let r ← clGetDeviceInfo device CL_DEVICE_GLOBAL_MEM_CACHE_TYPE 4 (some 4) false
  let err := r.status
  let cacheType := toUInt32 (r.stored 0 cacheType)
  CHECK_STATUS 170 err
  let cacheTypeStr : String :=
    if cacheType = CL_NONE then "CL_NONE"
    else if cacheType = CL_READ_ONLY_CACHE then "READ ONLY"
    else if cacheType = CL_READ_WRITE_CACHE then "READ/WRITE"
    else "no type was found."
  printf ("\n\tType: " ++ cacheTypeStr ++ "\n")
  let cacheLineSize ← uninitialised "cacheLineSize" 0
  let r ← clGetDeviceInfo device CL_DEVICE_GLOBAL_MEM_CACHELINE_SIZE 4 (some 4) false
  let err := r.status
  let cacheLineSize := toUInt32 (r.stored 0 cacheLineSize)
  CHECK_STATUS 184 err
  printf ("\n\tCacheline Size: " ++ fmt_d (toInt32 cacheLineSize) ++ "\n")
  printf "\n\nConstant Memory\n"
  let r ← clGetDeviceInfo device CL_DEVICE_MAX_CONSTANT_BUFFER_SIZE 8 (some 8) false
  let err := r.status
  let cacheSize := toUInt64 (r.stored 0 cacheSize)
  CHECK_STATUS 191 err
  printf ("\n\tMax Constant Buffer Size: " ++ fmt_lu cacheSize ++ "\n")
  let r ← clGetDeviceInfo device CL_DEVICE_MAX_CONSTANT_ARGS 4 (some 4) false
  let err := r.status
  let cacheLineSize := toUInt32 (r.stored 0 cacheLineSize)
  CHECK_STATUS 195 err
  printf ("\n\tMaximum number of constant arguments: " ++ fmt_d (toInt32 cacheLineSize) ++ "\n")
  printf "\n\nLocal Memory\n"
  let r ← clGetDeviceInfo device CL_DEVICE_LOCAL_MEM_SIZE 8 (some 8) false
  let err := r.status
  let cacheSize := toUInt64 (r.stored 0 cacheSize)
  CHECK_STATUS 202 err
  printf ("\n\tSize: " ++ fmt_lu cacheSize ++ "\n")
  let localType ← uninitialised "localType" 0
  let r ← clGetDeviceInfo device CL_DEVICE_LOCAL_MEM_TYPE 4 (some 4) false
  let err := r.status
  let localType := toUInt32 (r.stored 0 localType)
  CHECK_STATUS 207 err
  if localType = CL_LOCAL then
    printf "\n\tType: CL_LOCAL\n"
  else
    printf "\n\tType: CL_GLOBAL\n"
  printf "\nOther Device Info\n"
  let r ← clGetDeviceInfo device CL_DEVICE_MAX_WORK_GROUP_SIZE 8 (some 8) false
  let err := r.status
  let param_size := toUInt64 (r.stored 0 param_size)
  CHECK_STATUS 220 err
  printf ("\n\tMaximum Work-group Size: " ++ fmt_d (toInt32 param_size) ++ "\n")
  let NDrange0 ← uninitialised "NDrange" 0
  let NDrange1 ← uninitialised "NDrange" 1
  let NDrange2 ← uninitialised "NDrange" 2
  let r ← clGetDeviceInfo device CL_DEVICE_MAX_WORK_ITEM_SIZES 24 (some 24) false
  let err := r.status
  let NDrange : List Nat := [toUInt64 (r.stored 0 NDrange0), toUInt64 (r.stored 1 NDrange1),
    toUInt64 (r.stored 2 NDrange2)]
  CHECK_STATUS 226 err
  printf ("\n\tMaximum Work-item Sizes: " ++ fmt_d_word (NDrange.getD 0 0) ++ " , "
    ++ fmt_d_word (NDrange.getD 1 0) ++ ", " ++ fmt_d_word (NDrange.getD 2 0) ++ "\n")
  let r ← clGetDeviceInfo device CL_DEVICE_MAX_WORK_ITEM_DIMENSIONS 4 (some 4) false
  let err := r.status
  let cacheLineSize := toUInt32 (r.stored 0 cacheLineSize)
  CHECK_STATUS 231 err
  printf ("\n\tMax Work-item Dimensions: " ++ fmt_d (toInt32 cacheLineSize) ++ "\n")
  let r ← clGetDeviceInfo device CL_DEVICE_ADDRESS_BITS 4 (some 4) false
  let err := r.status
  let cacheLineSize := toUInt32 (r.stored 0 cacheLineSize)
  CHECK_STATUS 235 err
  printf ("\n\tAddress Space: " ++ fmt_d (toInt32 cacheLineSize) ++ "\n")
  let r ← clGetDeviceInfo device CL_DEVICE_MAX_MEM_ALLOC_SIZE 8 (some 8) false
  let err := r.status
  let cacheSize := toUInt64 (r.stored 0 cacheSize)
  CHECK_STATUS 239 err
  printf ("\n\tMax Size of Memory Object Allocation: " ++ fmt_lu cacheSize ++ "\n")
  let r ← clGetDeviceInfo device CL_DEVICE_MAX_PARAMETER_SIZE 8 (some 8) false
  let err := r.status
  let param_size := toUInt64 (r.stored 0 param_size)
  CHECK_STATUS 243 err
  printf ("\n\tMaximum Parameter Size: " ++ fmt_d (toInt32 param_size) ++ "\n")
  let myBool ← uninitialised "myBool" 0
  let r ← clGetDeviceInfo device CL_DEVICE_ENDIAN_LITTLE 4 (some 4) false
  let err := r.status
  let myBool := toUInt32 (r.stored 0 myBool)
  CHECK_STATUS 248 err
  if myBool = CL_TRUE then
    printf "\n\tLittle Endian\n"
  else
    printf "\n\tBig Endian\n"
  let r ← clGetDeviceInfo device CL_DEVICE_IMAGE_SUPPORT 4 (some 4) false
  let err := r.status
  let myBool := toUInt32 (r.stored 0 myBool)
  CHECK_STATUS 257 err
  if myBool = CL_TRUE then
    printf "\n\tImages Supported\n"
  else
    printf "\n\tImages NOT Supported\n"
  printf "\n\n\n"

end OpenclUtils

namespace GetInfo

/-- Function `opencl_error_to_str` of `getInfo.c` (lines 18-50). -/
def opencl_error_to_str (error : Int) : String :=
  if error = CL_SUCCESS then "CL_SUCCESS"
  else if error = CL_DEVICE_NOT_FOUND then "CL_DEVICE_NOT_FOUND"
  else if error = CL_DEVICE_NOT_AVAILABLE then "CL_DEVICE_NOT_AVAILABLE"
  else if error = CL_INVALID_VALUE then "CL_INVALID_VALUE"
  else if error = CL_OUT_OF_HOST_MEMORY then "CL_OUT_OF_HOST_MEMORY"
  else if error = CL_INVALID_PLATFORM then "CL_INVALID_PLATFORM"
  else if error = CL_INVALID_PROPERTY then "CL_INVALID_PROPERTY"
  else if error = CL_INVALID_DEVICE then "CL_INVALID_DEVICE"
  else if error = CL_INVALID_OPERATION then "CL_INVALID_OPERATION"
  else if error = CL_INVALID_PROGRAM then "CL_INVALID_PROGRAM"
  else if error = CL_INVALID_PROGRAM_EXECUTABLE then "CL_INVALID_PROGRAM_EXECUTABLE"
  else if error = CL_INVALID_KERNEL_NAME then "CL_INVALID_KERNEL_NAME"
  else if error = CL_INVALID_KERNEL_DEFINITION then "CL_INVALID_KERNEL_DEFINITION"
  else if error = CL_INVALID_CONTEXT then "CL_INVALID_CONTEXT"
  else if error = CL_INVALID_QUEUE_PROPERTIES then "CL_INVALID_QUEUE_PROPERTIES"
  else if error = CL_OUT_OF_RESOURCES then "CL_OUT_OF_RESOURCES"
  else if error = CL_INVALID_BUFFER_SIZE then "CL_INVALID_BUFFER_SIZE"
  else if error = CL_INVALID_HOST_PTR then "CL_INVALID_HOST_PTR"
  else if error = CL_MEM_OBJECT_ALLOCATION_FAILURE then "CL_MEM_OBJECT_ALLOCATION_FAILURE"
  else if error = CL_INVALID_DEVICE_TYPE then "CL_INVALID_DEVICE_TYPE"
  else if error = CL_INVALID_COMMAND_QUEUE then "CL_INVALID_COMMAND_QUEUE"
  else if error = CL_INVALID_MEM_OBJECT then "CL_INVALID_MEM_OBJECT"
  else if error = CL_INVALID_EVENT_WAIT_LIST then "CL_INVALID_EVENT_WAIT_LIST"
  else if error = CL_MISALIGNED_SUB_BUFFER_OFFSET then "CL_MISALIGNED_SUB_BUFFER_OFFSET"
  else if error = CL_EXEC_STATUS_ERROR_FOR_EVENTS_IN_WAIT_LIST then
    "CL_EXEC_STATUS_ERROR_FOR_EVENTS_IN_WAIT_LIST"
  else "UNKOWN ERROR CODE"

/-- Expansion of `__FILE__` in `getInfo.c`: the name the file is compiled under. -/
def FILE : String := "getInfo.c"

/-- Macro `CHECK_STATUS(status)`, expanded at source line `line`. -/
def CHECK_STATUS (line : Nat) (status : Int) : Prog Unit :=
  if status ≠ CL_SUCCESS then do
    fprintf_stderr (diagnostic FILE line (opencl_error_to_str status))
    exit 0
  else
    pure ()

/-- Function `query_platform_info` of `getInfo.c`. -/
def query_platform_info (platform : Nat) : Prog Unit := do
  let param_size ← uninitialised "param_size" 0
  let querySize : Nat := 5
  let infoStr : List String := ["Profile", "Version", "Name", "Vendor", "Extensions"]
  let param_name : List Nat := [CL_PLATFORM_PROFILE, CL_PLATFORM_VERSION, CL_PLATFORM_NAME,
    CL_PLATFORM_VENDOR, CL_PLATFORM_EXTENSIONS]
  printf "\n\n\nPlatform Info \n\n"
  let _ ← forLoop (fun i _ => do
    let r ← clGetPlatformInfo platform (param_name.getD i 0) 0 none true
    let err := r.status
    let param_size := toUInt64 r.size_ret
    CHECK_STATUS 84 err
    let block ← malloc param_size
    let param_value := block.1
    let r ← clGetPlatformInfo platform (param_name.getD i 0) param_size param_value false
    let err := r.status
    let memory := memoryAfter r.data block.2
    CHECK_STATUS 89 err
    printf (infoStr.getD i "" ++ ": " ++ fmt_s param_value memory ++ "\n")
    return param_size) 0 querySize param_size
  return ()

/-- Function `query_device_info` of `getInfo.c`. -/
def query_device_info (device : Nat) : Prog Unit := do
  let param_size ← uninitialised "param_size" 0
  let querySize : Nat := 5
  let infoStr : List String := ["Name", "Version", "Driver Version", "Profile", "Extensions"]
  let param_name : List Nat := [CL_DEVICE_NAME, CL_DEVICE_VERSION, CL_DRIVER_VERSION,
    CL_DEVICE_PROFILE, CL_DEVICE_EXTENSIONS]
  printf "\n\nDevice Info \n"
  let param_size ← forLoop (fun i _ => do
    let r ← clGetDeviceInfo device (param_name.getD i 0) 0 none true
    let err := r.status
    let param_size := toUInt64 r.size_ret
    CHECK_STATUS 128 err
    let block ← malloc param_size
    let param_value := block.1
    let r ← clGetDeviceInfo device (param_name.getD i 0) param_size param_value false
    let err := r.status
    let memory := memoryAfter r.data block.2
    CHECK_STATUS 133 err
    printf (infoStr.getD i "" ++ ": " ++ fmt_s param_value memory ++ "\n")
    return param_size) 0 querySize param_size
  printf "\n\nGlobal Memory Cache\n"
  let cacheSize ← uninitialised "cacheSize" 0
  let r ← clGetDeviceInfo device CL_DEVICE_GLOBAL_MEM_CACHE_SIZE 8 (some 8) false
  let err := r.status
  let cacheSize := toUInt64 (r.stored 0 cacheSize)
  CHECK_STATUS 147 err
  printf ("\n\tSize: " ++ fmt_lu cacheSize ++ "\n")
  let cacheType ← uninitialised "cacheType" 0
  let r ← clGetDeviceInfo device CL_DEVICE_GLOBAL_MEM_CACHE_TYPE 4 (some 4) false
  let err := r.status
  let cacheType := toUInt32 (r.stored 0 cacheType)
  CHECK_STATUS 154 err
  let cacheTypeStr : String :=
    if cacheType = CL_NONE then "CL_NONE"
    else if cacheType = CL_READ_ONLY_CACHE then "READ ONLY"
    else if cacheType = CL_READ_WRITE_CACHE then "READ/WRITE"
    else "no type was found."
  printf ("\n\tType: " ++ cacheTypeStr ++ "\n")
  let cacheLineSize ← uninitialised "cacheLineSize" 0
  let r ← clGetDeviceInfo device CL_DEVICE_GLOBAL_MEM_CACHELINE_SIZE 4 (some 4) false
  let err := r.status
  let cacheLineSize := toUInt32 (r.stored 0 cacheLineSize)
  CHECK_STATUS 169 err
  printf ("\n\tCacheline Size: " ++ fmt_d (toInt32 cacheLineSize) ++ "\n")
  printf "\n\nConstant Memory\n"
  let r ← clGetDeviceInfo device CL_DEVICE_MAX_CONSTANT_BUFFER_SIZE 8 (some 8) false
  let err := r.status
  let cacheSize := toUInt64 (r.stored 0 cacheSize)
  CHECK_STATUS 178 err
  printf ("\n\tMax Constant Buffer Size: " ++ fmt_lu cacheSize ++ "\n")
  let r ← clGetDeviceInfo device CL_DEVICE_MAX_CONSTANT_ARGS 4 (some 4) false
  let err := r.status
  let cacheLineSize := toUInt32 (r.stored 0 cacheLineSize)
  CHECK_STATUS 182 err
  printf ("\n\tMaximum number of constant arguments: " ++ fmt_d (toInt32 cacheLineSize) ++ "\n")
  printf "\n\nLocal Memory\n"
  let r ← clGetDeviceInfo device CL_DEVICE_LOCAL_MEM_SIZE 8 (some 8) false
  let err := r.status
  let cacheSize := toUInt64 (r.stored 0 cacheSize)
  CHECK_STATUS 192 err
  printf ("\n\tSize: " ++ fmt_lu cacheSize ++ "\n")
  let localType ← uninitialised "localType" 0
  let r ← clGetDeviceInfo device CL_DEVICE_LOCAL_MEM_TYPE 4 (some 4) false
  let err := r.status
  let localType := toUInt32 (r.stored 0 localType)
  CHECK_STATUS 197 err
  if localType = CL_LOCAL then
    printf "\n\tType: CL_LOCAL\n"
  else
    printf "\n\tType: CL_GLOBAL\n"
  printf "\nOther Device Info\n"
  let r ← clGetDeviceInfo device CL_DEVICE_MAX_WORK_GROUP_SIZE 8 (some 8) false
  let err := r.status
  let param_size := toUInt64 (r.stored 0 param_size)
  CHECK_STATUS 211 err
  printf ("\n\tMaximum Work-group Size: " ++ fmt_d (toInt32 param_size) ++ "\n")
  let NDrange0 ← uninitialised "NDrange" 0
  let NDrange1 ← uninitialised "NDrange" 1
  let NDrange2 ← uninitialised "NDrange" 2
  let r ← clGetDeviceInfo device CL_DEVICE_MAX_WORK_ITEM_SIZES 24 (some 24) false
  let err := r.status
  let NDrange : List Nat := [toUInt64 (r.stored 0 NDrange0), toUInt64 (r.stored 1 NDrange1),
    toUInt64 (r.stored 2 NDrange2)]
  CHECK_STATUS 221 err
  printf ("\n\tMaximum Work-item Sizes: " ++ fmt_d_word (NDrange.getD 0 0) ++ " , "
    ++ fmt_d_word (NDrange.getD 1 0) ++ ", " ++ fmt_d_word (NDrange.getD 2 0) ++ "\n")
  let r ← clGetDeviceInfo device CL_DEVICE_MAX_WORK_ITEM_DIMENSIONS 4 (some 4) false
  let err := r.status
  let cacheLineSize := toUInt32 (r.stored 0 cacheLineSize)
  CHECK_STATUS 229 err
  printf ("\n\tMax Work-item Dimensions: " ++ fmt_d (toInt32 cacheLineSize) ++ "\n")
  let r ← clGetDeviceInfo device CL_DEVICE_ADDRESS_BITS 4 (some 4) false
  let err := r.status
  let cacheLineSize := toUInt32 (r.stored 0 cacheLineSize)
  CHECK_STATUS 234 err
  printf ("\n\tAddress Space: " ++ fmt_d (toInt32 cacheLineSize) ++ "\n")
  let r ← clGetDeviceInfo device CL_DEVICE_MAX_MEM_ALLOC_SIZE 8 (some 8) false
  let err := r.status
  let cacheSize := toUInt64 (r.stored 0 cacheSize)
  CHECK_STATUS 239 err
  printf ("\n\tMax Size of Memory Object Allocation: " ++ fmt_lu cacheSize ++ "\n")
  let r ← clGetDeviceInfo device CL_DEVICE_MAX_PARAMETER_SIZE 8 (some 8) false
  let err := r.status
  let param_size := toUInt64 (r.stored 0 param_size)
  CHECK_STATUS 243 err
  printf ("\n\tMaximum Parameter Size: " ++ fmt_d (toInt32 param_size) ++ "\n")
  let myBool ← uninitialised "myBool" 0
  let r ← clGetDeviceInfo device CL_DEVICE_ENDIAN_LITTLE 4 (some 4) false
  let err := r.status
  let myBool := toUInt32 (r.stored 0 myBool)
  CHECK_STATUS 248 err
  if myBool = CL_TRUE then
    printf "\n\tLittle Endian\n"
  else
    printf "\n\tBig Endian\n"
  let r ← clGetDeviceInfo device CL_DEVICE_IMAGE_SUPPORT 4 (some 4) false
  let err := r.status
  let myBool := toUInt32 (r.stored 0 myBool)
  CHECK_STATUS 257 err
  if myBool = CL_TRUE then
    printf "\n\tImages Supported\n"
  else
    printf "\n\tImages NOT Supported\n"
  printf "\n\n\n"

/-- Function `main` of `getInfo.c` (lines 269-314).  The variable `status` that
receives the code of the two creation calls is not declared in the file; it is
a local `cl_int`, written by the calls and read nowhere.  `main` ends without a
`return`, so it returns 0. -/
def main : Prog Int := do
  let platform ← uninitialised "platform" 0
  let r ← clGetPlatformIDs 1 (some 8) false
  let err := r.status
  let platform := r.stored 0 platform
  CHECK_STATUS 280 err
  query_platform_info platform
  let device ← uninitialised "device" 0
  let r ← clGetDeviceIDs platform CL_DEVICE_TYPE_ACCELERATOR 1 (some 8) false
  let err := r.status
  let device := r.stored 0 device
  CHECK_STATUS 288 err
  query_device_info device
  let r ← clCreateContext false 1 [device] false false true
  let context := r.handle
  let _status := r.status
  CHECK_STATUS 300 err
  let r ← clCreateCommandQueue context device 0 true
  let _cmdQueue := r.handle
  let _status := r.status
  CHECK_STATUS 310 err
  return 0

end GetInfo

namespace PerformanceTools

/-- One invocation of `syscall(2)`: the system-call number and the five
arguments, as passed. -/
structure Syscall where
  number : Nat
  hw_event : Nat
  pid : Int
  cpu : Int
  group_fd : Int
  flags : Nat
  deriving DecidableEq, Repr

/-- Function `perf_event_open` of `performance_tools.c` (lines 16-24).  `NR` is
`__NR_perf_event_open` of `<asm/unistd.h>` and `kernel` the system-call
interface, which returns a `long`.  The result is the list of system calls made
and the returned `long`: the value of `int ret`, converted back to `long`. -/
def perf_event_open (NR : Nat) (kernel : Syscall → Int) (hw_event : Nat)
    (pid cpu group_fd : Int) (flags : Nat) : List Syscall × Int :=
  let call : Syscall := ⟨NR, hw_event, pid, cpu, group_fd, flags⟩
  let ret : Int := toInt32 (kernel call)
  ([call], ret)

end PerformanceTools

/-! ## Vocabulary of the fail-fast protocol -/

namespace CL

/-- The driver that stores what `d` stores but reports `CL_SUCCESS` on every
call: the all-success run that goes with a run under `d`. -/
def succeed (d : Driver) : Driver := fun k c => { d k c with status := CL_SUCCESS }

/-- The part of a trace that precedes its `k`-th API call (counted from 0). -/
def beforeCall : Nat → List Event → List Event
  | _, [] => []
  | 0, Event.call _ _ :: _ => []
  | k + 1, Event.call c a :: t => Event.call c a :: beforeCall k t
  | k, e :: t => e :: beforeCall k t

/-- A trace in which nothing went wrong: only output on standard output and
calls answered with `CL_SUCCESS`. -/
def Clean : List Event → Prop
  | [] => True
  | Event.stdout _ :: t => Clean t
  | Event.call _ a :: t => a.status = CL_SUCCESS ∧ Clean t
  | _ => False

/-- Proof device: the trace `t` of a run under `d` walks along the trace `t'` of
the all-success run, from call number `k` on; at the first call whose status is
not `CL_SUCCESS` it ends with the diagnostic for that call's check and
`exit(0)`. -/
def lockstep (d : Driver) (file : String) (str : Int → String) (sites : List Nat) :
    Nat → List Event → List Event → Prop
  | _, [], [] => True
  | k, Event.stdout s :: t, Event.stdout s' :: t' =>
      s = s' ∧ lockstep d file str sites k t t'
  | k, Event.call c a :: t, Event.call c' a' :: t' =>
      c = c' ∧ a = d k c ∧ a' = succeed d k c ∧
        if a.status = CL_SUCCESS then lockstep d file str sites (k + 1) t t'
        else t = [Event.stderr (diagnostic file (sites.getD k 0) (str a.status)),
          Event.exit 0]
  | _, _, _ => False

/-- The fail-fast protocol, for the trace `t` of a run and the trace `t'` of the
all-success run that goes with it; `sites` lists, per API call, the source line
of the check that follows it. -/
def FailFast (file : String) (str : Int → String) (sites : List Nat)
    (t t' : List Event) : Prop :=
  ((∀ ca ∈ callsOf t, ca.2.status = CL_SUCCESS) →
      t = t' ∧ stderrOf t = [] ∧ exitsOf t = []) ∧
  (∀ k c a, (callsOf t).get? k = some (c, a) → a.status ≠ CL_SUCCESS →
      (callsOf t).length = k + 1 ∧
      (∀ ca ∈ (callsOf t).take k, ca.2.status = CL_SUCCESS) ∧
      t = beforeCall k t' ++ [Event.call c a,
        Event.stderr (diagnostic file (sites.getD k 0) (str a.status)), Event.exit 0] ∧
      stdoutText t = stdoutText (beforeCall k t') ∧
      stderrOf t = [diagnostic file (sites.getD k 0) (str a.status)] ∧
      exitsOf t = [0])

/-- Two traces agree event by event, except that a diagnostic may name another
file and another line. -/
def SameUpToSite (file1 file2 : String) : List Event → List Event → Prop
  | [], [] => True
  | e1 :: t1, e2 :: t2 =>
      (e1 = e2 ∨ ∃ l1 l2 name, e1 = Event.stderr (diagnostic file1 l1 name) ∧
        e2 = Event.stderr (diagnostic file2 l2 name)) ∧ SameUpToSite file1 file2 t1 t2
  | _, _ => False

/-- Proof device: `r` is what a run under `d` emits from call number `n` on when
it stops at a failing check, `r'` what the all-success run emits from there. -/
def Fails (d : Driver) (file : String) (str : Int → String) (sites : List Nat) :
    Nat → List Event → List Event → Prop
  | k, Event.stdout s :: t, Event.stdout s' :: t' =>
      s = s' ∧ Fails d file str sites k t t'
  | k, Event.call c a :: t, Event.call c' a' :: t' =>
      c = c' ∧ a = d k c ∧ a' = succeed d k c ∧
        if a.status = CL_SUCCESS then Fails d file str sites (k + 1) t t'
        else t = [Event.stderr (diagnostic file (sites.getD k 0) (str a.status)),
          Event.exit 0]
  | _, _, _ => False

/-- Proof device: the code `p`, started at call number `n`, either runs like the
all-success run and ends at call number `m`, or stops at a failing check. -/
def Walks (d : Driver) (file : String) (str : Int → String) (sites : List Nat)
    {α : Type} (n m : Nat) (p : Prog α) : Prop :=
  ∀ u u' : List Event, numCalls u = n → numCalls u' = n →
    ∃ a r', p (succeed d) u' = Result.ok a (u' ++ r') ∧ n + numCalls r' = m ∧ Clean r' ∧
      ((p d u = Result.ok a (u ++ r') ∧ lockstep d file str sites n r' r') ∨
        ∃ r, p d u = Result.exited (u ++ r) ∧ Fails d file str sites n r r')

/-- Proof device: started at call number `n` under `d`, the code `p` returns `a`
at call number `m` after emitting the events that lead the list `l` up to its
tail `l'`. -/
def Emits (d : Driver) {α : Type} (n m : Nat) (p : Prog α) (a : α) (l l' : List Event) :
    Prop :=
  ∃ r, l = r ++ l' ∧ n + numCalls r = m ∧
    ∀ u : List Event, numCalls u = n → p d u = Result.ok a (u ++ r)

end CL

/-! ## Mock drivers used as concrete inputs -/

namespace CL

/-- Bytes of the C string `"OpenCL 1.2"` with its terminator (11 bytes). -/
def openCL12 : List Nat := [79, 112, 101, 110, 67, 76, 32, 49, 46, 50, 0]

/-- A driver that succeeds on every call: every string attribute is
`"OpenCL 1.2"` (size 11), every scalar is 2 and the work-item sizes are
(256, 256, 64).  Every `malloc` gives a block (pointer 1), and what was not
written holds 1. -/
def okDriver : Driver := fun _ c =>
  match c with
  | Call.clGetPlatformInfo _ _ _ _ _ => ⟨CL_SUCCESS, 11, openCL12, 0⟩
  | Call.clGetDeviceInfo _ name _ _ _ =>
      if name = CL_DEVICE_MAX_WORK_ITEM_SIZES then ⟨CL_SUCCESS, 24, [256, 256, 64], 0⟩
      else if name < CL_DEVICE_NAME then ⟨CL_SUCCESS, 8, [2], 0⟩
      else ⟨CL_SUCCESS, 11, openCL12, 0⟩
  | _ => ⟨CL_SUCCESS, 1, [1], 1⟩

/-- As `okDriver`, but the device reports the work-item sizes (2147483648, 1, 1). -/
def wideDriver : Driver := fun k c =>
  match c with
  | Call.clGetDeviceInfo _ name _ _ _ =>
      if name = CL_DEVICE_MAX_WORK_ITEM_SIZES then ⟨CL_SUCCESS, 24, [2147483648, 1, 1], 0⟩
      else okDriver k c
  | _ => okDriver k c

/-- As `okDriver`, but the cache-type query of a device fails with
`CL_INVALID_VALUE`. -/
def cacheTypeFailDriver : Driver := fun k c =>
  match c with
  | Call.clGetDeviceInfo _ name _ _ _ =>
      if name = CL_DEVICE_GLOBAL_MEM_CACHE_TYPE then ⟨CL_INVALID_VALUE, 0, [], 0⟩
      else okDriver k c
  | _ => okDriver k c

/-- As `okDriver`, but `clCreateContext` fails with `CL_OUT_OF_HOST_MEMORY`. -/
def contextFailDriver : Driver := fun k c =>
  match c with
  | Call.clCreateContext _ _ _ _ _ _ => ⟨CL_OUT_OF_HOST_MEMORY, 0, [], 0⟩
  | _ => okDriver k c

/-- As `okDriver`, but `clCreateCommandQueue` fails with `CL_INVALID_DEVICE`. -/
def queueFailDriver : Driver := fun k c =>
  match c with
  | Call.clCreateCommandQueue _ _ _ _ => ⟨CL_INVALID_DEVICE, 0, [], 0⟩
  | _ => okDriver k c

/-- A driver that succeeds on every call and announces a size of 2^62 bytes for
every string attribute, in an environment where `malloc` returns `NULL`; a
fetch then gets a null buffer and stores nothing. -/
def noMemoryDriver : Driver := fun k c =>
  match c with
  | Call.malloc _ => ⟨CL_SUCCESS, 0, [], 0⟩
  | Call.clGetPlatformInfo _ _ _ _ _ => ⟨CL_SUCCESS, 4611686018427387904, [], 0⟩
  | Call.clGetDeviceInfo _ name _ _ _ =>
      if name < CL_DEVICE_NAME then okDriver k c
      else ⟨CL_SUCCESS, 4611686018427387904, [], 0⟩
  | _ => okDriver k c

/-- The events of the all-success run of `query_platform_info`, in order: the
header, then per attribute the size call, the fetch call and the printed line. -/
def platformTrace (d : Driver) (platform : Nat) : List Event :=
  [Event.stdout "\n\n\nPlatform Info \n\n",
   Event.call (Call.clGetPlatformInfo platform CL_PLATFORM_PROFILE 0 none true) (d 0 (Call.clGetPlatformInfo platform CL_PLATFORM_PROFILE 0 none true)),
   Event.call (Call.clGetPlatformInfo platform CL_PLATFORM_PROFILE (toUInt64 (d 0 (Call.clGetPlatformInfo platform CL_PLATFORM_PROFILE 0 none true)).size_ret) (if (d 1 (Call.malloc (toUInt64 (d 0 (Call.clGetPlatformInfo platform CL_PLATFORM_PROFILE 0 none true)).size_ret))).handle = 0 then none else some (toUInt64 (d 0 (Call.clGetPlatformInfo platform CL_PLATFORM_PROFILE 0 none true)).size_ret)) false) (d 1 (Call.clGetPlatformInfo platform CL_PLATFORM_PROFILE (toUInt64 (d 0 (Call.clGetPlatformInfo platform CL_PLATFORM_PROFILE 0 none true)).size_ret) (if (d 1 (Call.malloc (toUInt64 (d 0 (Call.clGetPlatformInfo platform CL_PLATFORM_PROFILE 0 none true)).size_ret))).handle = 0 then none else some (toUInt64 (d 0 (Call.clGetPlatformInfo platform CL_PLATFORM_PROFILE 0 none true)).size_ret)) false)),
   Event.stdout ("Profile: " ++ fmt_s (if (d 1 (Call.malloc (toUInt64 (d 0 (Call.clGetPlatformInfo platform CL_PLATFORM_PROFILE 0 none true)).size_ret))).handle = 0 then none else some (toUInt64 (d 0 (Call.clGetPlatformInfo platform CL_PLATFORM_PROFILE 0 none true)).size_ret)) (memoryAfter (d 1 (Call.clGetPlatformInfo platform CL_PLATFORM_PROFILE (toUInt64 (d 0 (Call.clGetPlatformInfo platform CL_PLATFORM_PROFILE 0 none true)).size_ret) (if (d 1 (Call.malloc (toUInt64 (d 0 (Call.clGetPlatformInfo platform CL_PLATFORM_PROFILE 0 none true)).size_ret))).handle = 0 then none else some (toUInt64 (d 0 (Call.clGetPlatformInfo platform CL_PLATFORM_PROFILE 0 none true)).size_ret)) false)).data (d 1 (Call.malloc (toUInt64 (d 0 (Call.clGetPlatformInfo platform CL_PLATFORM_PROFILE 0 none true)).size_ret))).data) ++ "\n"),
   Event.call (Call.clGetPlatformInfo platform CL_PLATFORM_VERSION 0 none true) (d 2 (Call.clGetPlatformInfo platform CL_PLATFORM_VERSION 0 none true)),
   Event.call (Call.clGetPlatformInfo platform CL_PLATFORM_VERSION (toUInt64 (d 2 (Call.clGetPlatformInfo platform CL_PLATFORM_VERSION 0 none true)).size_ret) (if (d 3 (Call.malloc (toUInt64 (d 2 (Call.clGetPlatformInfo platform CL_PLATFORM_VERSION 0 none true)).size_ret))).handle = 0 then none else some (toUInt64 (d 2 (Call.clGetPlatformInfo platform CL_PLATFORM_VERSION 0 none true)).size_ret)) false) (d 3 (Call.clGetPlatformInfo platform CL_PLATFORM_VERSION (toUInt64 (d 2 (Call.clGetPlatformInfo platform CL_PLATFORM_VERSION 0 none true)).size_ret) (if (d 3 (Call.malloc (toUInt64 (d 2 (Call.clGetPlatformInfo platform CL_PLATFORM_VERSION 0 none true)).size_ret))).handle = 0 then none else some (toUInt64 (d 2 (Call.clGetPlatformInfo platform CL_PLATFORM_VERSION 0 none true)).size_ret)) false)),
   Event.stdout ("Version: " ++ fmt_s (if (d 3 (Call.malloc (toUInt64 (d 2 (Call.clGetPlatformInfo platform CL_PLATFORM_VERSION 0 none true)).size_ret))).handle = 0 then none else some (toUInt64 (d 2 (Call.clGetPlatformInfo platform CL_PLATFORM_VERSION 0 none true)).size_ret)) (memoryAfter (d 3 (Call.clGetPlatformInfo platform CL_PLATFORM_VERSION (toUInt64 (d 2 (Call.clGetPlatformInfo platform CL_PLATFORM_VERSION 0 none true)).size_ret) (if (d 3 (Call.malloc (toUInt64 (d 2 (Call.clGetPlatformInfo platform CL_PLATFORM_VERSION 0 none true)).size_ret))).handle = 0 then none else some (toUInt64 (d 2 (Call.clGetPlatformInfo platform CL_PLATFORM_VERSION 0 none true)).size_ret)) false)).data (d 3 (Call.malloc (toUInt64 (d 2 (Call.clGetPlatformInfo platform CL_PLATFORM_VERSION 0 none true)).size_ret))).data) ++ "\n"),
   Event.call (Call.clGetPlatformInfo platform CL_PLATFORM_NAME 0 none true) (d 4 (Call.clGetPlatformInfo platform CL_PLATFORM_NAME 0 none true)),
   Event.call (Call.clGetPlatformInfo platform CL_PLATFORM_NAME (toUInt64 (d 4 (Call.clGetPlatformInfo platform CL_PLATFORM_NAME 0 none true)).size_ret) (if (d 5 (Call.malloc (toUInt64 (d 4 (Call.clGetPlatformInfo platform CL_PLATFORM_NAME 0 none true)).size_ret))).handle = 0 then none else some (toUInt64 (d 4 (Call.clGetPlatformInfo platform CL_PLATFORM_NAME 0 none true)).size_ret)) false) (d 5 (Call.clGetPlatformInfo platform CL_PLATFORM_NAME (toUInt64 (d 4 (Call.clGetPlatformInfo platform CL_PLATFORM_NAME 0 none true)).size_ret) (if (d 5 (Call.malloc (toUInt64 (d 4 (Call.clGetPlatformInfo platform CL_PLATFORM_NAME 0 none true)).size_ret))).handle = 0 then none else some (toUInt64 (d 4 (Call.clGetPlatformInfo platform CL_PLATFORM_NAME 0 none true)).size_ret)) false)),
   Event.stdout ("Name: " ++ fmt_s (if (d 5 (Call.malloc (toUInt64 (d 4 (Call.clGetPlatformInfo platform CL_PLATFORM_NAME 0 none true)).size_ret))).handle = 0 then none else some (toUInt64 (d 4 (Call.clGetPlatformInfo platform CL_PLATFORM_NAME 0 none true)).size_ret)) (memoryAfter (d 5 (Call.clGetPlatformInfo platform CL_PLATFORM_NAME (toUInt64 (d 4 (Call.clGetPlatformInfo platform CL_PLATFORM_NAME 0 none true)).size_ret) (if (d 5 (Call.malloc (toUInt64 (d 4 (Call.clGetPlatformInfo platform CL_PLATFORM_NAME 0 none true)).size_ret))).handle = 0 then none else some (toUInt64 (d 4 (Call.clGetPlatformInfo platform CL_PLATFORM_NAME 0 none true)).size_ret)) false)).data (d 5 (Call.malloc (toUInt64 (d 4 (Call.clGetPlatformInfo platform CL_PLATFORM_NAME 0 none true)).size_ret))).data) ++ "\n"),
   Event.call (Call.clGetPlatformInfo platform CL_PLATFORM_VENDOR 0 none true) (d 6 (Call.clGetPlatformInfo platform CL_PLATFORM_VENDOR 0 none true)),
   Event.call (Call.clGetPlatformInfo platform CL_PLATFORM_VENDOR (toUInt64 (d 6 (Call.clGetPlatformInfo platform CL_PLATFORM_VENDOR 0 none true)).size_ret) (if (d 7 (Call.malloc (toUInt64 (d 6 (Call.clGetPlatformInfo platform CL_PLATFORM_VENDOR 0 none true)).size_ret))).handle = 0 then none else some (toUInt64 (d 6 (Call.clGetPlatformInfo platform CL_PLATFORM_VENDOR 0 none true)).size_ret)) false) (d 7 (Call.clGetPlatformInfo platform CL_PLATFORM_VENDOR (toUInt64 (d 6 (Call.clGetPlatformInfo platform CL_PLATFORM_VENDOR 0 none true)).size_ret) (if (d 7 (Call.malloc (toUInt64 (d 6 (Call.clGetPlatformInfo platform CL_PLATFORM_VENDOR 0 none true)).size_ret))).handle = 0 then none else some (toUInt64 (d 6 (Call.clGetPlatformInfo platform CL_PLATFORM_VENDOR 0 none true)).size_ret)) false)),
   Event.stdout ("Vendor: " ++ fmt_s (if (d 7 (Call.malloc (toUInt64 (d 6 (Call.clGetPlatformInfo platform CL_PLATFORM_VENDOR 0 none true)).size_ret))).handle = 0 then none else some (toUInt64 (d 6 (Call.clGetPlatformInfo platform CL_PLATFORM_VENDOR 0 none true)).size_ret)) (memoryAfter (d 7 (Call.clGetPlatformInfo platform CL_PLATFORM_VENDOR (toUInt64 (d 6 (Call.clGetPlatformInfo platform CL_PLATFORM_VENDOR 0 none true)).size_ret) (if (d 7 (Call.malloc (toUInt64 (d 6 (Call.clGetPlatformInfo platform CL_PLATFORM_VENDOR 0 none true)).size_ret))).handle = 0 then none else some (toUInt64 (d 6 (Call.clGetPlatformInfo platform CL_PLATFORM_VENDOR 0 none true)).size_ret)) false)).data (d 7 (Call.malloc (toUInt64 (d 6 (Call.clGetPlatformInfo platform CL_PLATFORM_VENDOR 0 none true)).size_ret))).data) ++ "\n"),
   Event.call (Call.clGetPlatformInfo platform CL_PLATFORM_EXTENSIONS 0 none true) (d 8 (Call.clGetPlatformInfo platform CL_PLATFORM_EXTENSIONS 0 none true)),
   Event.call (Call.clGetPlatformInfo platform CL_PLATFORM_EXTENSIONS (toUInt64 (d 8 (Call.clGetPlatformInfo platform CL_PLATFORM_EXTENSIONS 0 none true)).size_ret) (if (d 9 (Call.malloc (toUInt64 (d 8 (Call.clGetPlatformInfo platform CL_PLATFORM_EXTENSIONS 0 none true)).size_ret))).handle = 0 then none else some (toUInt64 (d 8 (Call.clGetPlatformInfo platform CL_PLATFORM_EXTENSIONS 0 none true)).size_ret)) false) (d 9 (Call.clGetPlatformInfo platform CL_PLATFORM_EXTENSIONS (toUInt64 (d 8 (Call.clGetPlatformInfo platform CL_PLATFORM_EXTENSIONS 0 none true)).size_ret) (if (d 9 (Call.malloc (toUInt64 (d 8 (Call.clGetPlatformInfo platform CL_PLATFORM_EXTENSIONS 0 none true)).size_ret))).handle = 0 then none else some (toUInt64 (d 8 (Call.clGetPlatformInfo platform CL_PLATFORM_EXTENSIONS 0 none true)).size_ret)) false)),
   Event.stdout ("Extensions: " ++ fmt_s (if (d 9 (Call.malloc (toUInt64 (d 8 (Call.clGetPlatformInfo platform CL_PLATFORM_EXTENSIONS 0 none true)).size_ret))).handle = 0 then none else some (toUInt64 (d 8 (Call.clGetPlatformInfo platform CL_PLATFORM_EXTENSIONS 0 none true)).size_ret)) (memoryAfter (d 9 (Call.clGetPlatformInfo platform CL_PLATFORM_EXTENSIONS (toUInt64 (d 8 (Call.clGetPlatformInfo platform CL_PLATFORM_EXTENSIONS 0 none true)).size_ret) (if (d 9 (Call.malloc (toUInt64 (d 8 (Call.clGetPlatformInfo platform CL_PLATFORM_EXTENSIONS 0 none true)).size_ret))).handle = 0 then none else some (toUInt64 (d 8 (Call.clGetPlatformInfo platform CL_PLATFORM_EXTENSIONS 0 none true)).size_ret)) false)).data (d 9 (Call.malloc (toUInt64 (d 8 (Call.clGetPlatformInfo platform CL_PLATFORM_EXTENSIONS 0 none true)).size_ret))).data) ++ "\n")]

/-- The events of the all-success run of `query_device_info`, in order. -/
def deviceTrace (d : Driver) (device : Nat) : List Event :=
  [Event.stdout "\n\nDevice Info \n",
   Event.call (Call.clGetDeviceInfo device CL_DEVICE_NAME 0 none true) (d 0 (Call.clGetDeviceInfo device CL_DEVICE_NAME 0 none true)),
   Event.call (Call.clGetDeviceInfo device CL_DEVICE_NAME (toUInt64 (d 0 (Call.clGetDeviceInfo device CL_DEVICE_NAME 0 none true)).size_ret) (if (d 1 (Call.malloc (toUInt64 (d 0 (Call.clGetDeviceInfo device CL_DEVICE_NAME 0 none true)).size_ret))).handle = 0 then none else some (toUInt64 (d 0 (Call.clGetDeviceInfo device CL_DEVICE_NAME 0 none true)).size_ret)) false) (d 1 (Call.clGetDeviceInfo device CL_DEVICE_NAME (toUInt64 (d 0 (Call.clGetDeviceInfo device CL_DEVICE_NAME 0 none true)).size_ret) (if (d 1 (Call.malloc (toUInt64 (d 0 (Call.clGetDeviceInfo device CL_DEVICE_NAME 0 none true)).size_ret))).handle = 0 then none else some (toUInt64 (d 0 (Call.clGetDeviceInfo device CL_DEVICE_NAME 0 none true)).size_ret)) false)),
   Event.stdout ("Name: " ++ fmt_s (if (d 1 (Call.malloc (toUInt64 (d 0 (Call.clGetDeviceInfo device CL_DEVICE_NAME 0 none true)).size_ret))).handle = 0 then none else some (toUInt64 (d 0 (Call.clGetDeviceInfo device CL_DEVICE_NAME 0 none true)).size_ret)) (memoryAfter (d 1 (Call.clGetDeviceInfo device CL_DEVICE_NAME (toUInt64 (d 0 (Call.clGetDeviceInfo device CL_DEVICE_NAME 0 none true)).size_ret) (if (d 1 (Call.malloc (toUInt64 (d 0 (Call.clGetDeviceInfo device CL_DEVICE_NAME 0 none true)).size_ret))).handle = 0 then none else some (toUInt64 (d 0 (Call.clGetDeviceInfo device CL_DEVICE_NAME 0 none true)).size_ret)) false)).data (d 1 (Call.malloc (toUInt64 (d 0 (Call.clGetDeviceInfo device CL_DEVICE_NAME 0 none true)).size_ret))).data) ++ "\n"),
   Event.call (Call.clGetDeviceInfo device CL_DEVICE_VERSION 0 none true) (d 2 (Call.clGetDeviceInfo device CL_DEVICE_VERSION 0 none true)),
   Event.call (Call.clGetDeviceInfo device CL_DEVICE_VERSION (toUInt64 (d 2 (Call.clGetDeviceInfo device CL_DEVICE_VERSION 0 none true)).size_ret) (if (d 3 (Call.malloc (toUInt64 (d 2 (Call.clGetDeviceInfo device CL_DEVICE_VERSION 0 none true)).size_ret))).handle = 0 then none else some (toUInt64 (d 2 (Call.clGetDeviceInfo device CL_DEVICE_VERSION 0 none true)).size_ret)) false) (d 3 (Call.clGetDeviceInfo device CL_DEVICE_VERSION (toUInt64 (d 2 (Call.clGetDeviceInfo device CL_DEVICE_VERSION 0 none true)).size_ret) (if (d 3 (Call.malloc (toUInt64 (d 2 (Call.clGetDeviceInfo device CL_DEVICE_VERSION 0 none true)).size_ret))).handle = 0 then none else some (toUInt64 (d 2 (Call.clGetDeviceInfo device CL_DEVICE_VERSION 0 none true)).size_ret)) false)),
   Event.stdout ("Version: " ++ fmt_s (if (d 3 (Call.malloc (toUInt64 (d 2 (Call.clGetDeviceInfo device CL_DEVICE_VERSION 0 none true)).size_ret))).handle = 0 then none else some (toUInt64 (d 2 (Call.clGetDeviceInfo device CL_DEVICE_VERSION 0 none true)).size_ret)) (memoryAfter (d 3 (Call.clGetDeviceInfo device CL_DEVICE_VERSION (toUInt64 (d 2 (Call.clGetDeviceInfo device CL_DEVICE_VERSION 0 none true)).size_ret) (if (d 3 (Call.malloc (toUInt64 (d 2 (Call.clGetDeviceInfo device CL_DEVICE_VERSION 0 none true)).size_ret))).handle = 0 then none else some (toUInt64 (d 2 (Call.clGetDeviceInfo device CL_DEVICE_VERSION 0 none true)).size_ret)) false)).data (d 3 (Call.malloc (toUInt64 (d 2 (Call.clGetDeviceInfo device CL_DEVICE_VERSION 0 none true)).size_ret))).data) ++ "\n"),
   Event.call (Call.clGetDeviceInfo device CL_DRIVER_VERSION 0 none true) (d 4 (Call.clGetDeviceInfo device CL_DRIVER_VERSION 0 none true)),
   Event.call (Call.clGetDeviceInfo device CL_DRIVER_VERSION (toUInt64 (d 4 (Call.clGetDeviceInfo device CL_DRIVER_VERSION 0 none true)).size_ret) (if (d 5 (Call.malloc (toUInt64 (d 4 (Call.clGetDeviceInfo device CL_DRIVER_VERSION 0 none true)).size_ret))).handle = 0 then none else some (toUInt64 (d 4 (Call.clGetDeviceInfo device CL_DRIVER_VERSION 0 none true)).size_ret)) false) (d 5 (Call.clGetDeviceInfo device CL_DRIVER_VERSION (toUInt64 (d 4 (Call.clGetDeviceInfo device CL_DRIVER_VERSION 0 none true)).size_ret) (if (d 5 (Call.malloc (toUInt64 (d 4 (Call.clGetDeviceInfo device CL_DRIVER_VERSION 0 none true)).size_ret))).handle = 0 then none else some (toUInt64 (d 4 (Call.clGetDeviceInfo device CL_DRIVER_VERSION 0 none true)).size_ret)) false)),
   Event.stdout ("Driver Version: " ++ fmt_s (if (d 5 (Call.malloc (toUInt64 (d 4 (Call.clGetDeviceInfo device CL_DRIVER_VERSION 0 none true)).size_ret))).handle = 0 then none else some (toUInt64 (d 4 (Call.clGetDeviceInfo device CL_DRIVER_VERSION 0 none true)).size_ret)) (memoryAfter (d 5 (Call.clGetDeviceInfo device CL_DRIVER_VERSION (toUInt64 (d 4 (Call.clGetDeviceInfo device CL_DRIVER_VERSION 0 none true)).size_ret) (if (d 5 (Call.malloc (toUInt64 (d 4 (Call.clGetDeviceInfo device CL_DRIVER_VERSION 0 none true)).size_ret))).handle = 0 then none else some (toUInt64 (d 4 (Call.clGetDeviceInfo device CL_DRIVER_VERSION 0 none true)).size_ret)) false)).data (d 5 (Call.malloc (toUInt64 (d 4 (Call.clGetDeviceInfo device CL_DRIVER_VERSION 0 none true)).size_ret))).data) ++ "\n"),
   Event.call (Call.clGetDeviceInfo device CL_DEVICE_PROFILE 0 none true) (d 6 (Call.clGetDeviceInfo device CL_DEVICE_PROFILE 0 none true)),
   Event.call (Call.clGetDeviceInfo device CL_DEVICE_PROFILE (toUInt64 (d 6 (Call.clGetDeviceInfo device CL_DEVICE_PROFILE 0 none true)).size_ret) (if (d 7 (Call.malloc (toUInt64 (d 6 (Call.clGetDeviceInfo device CL_DEVICE_PROFILE 0 none true)).size_ret))).handle = 0 then none else some (toUInt64 (d 6 (Call.clGetDeviceInfo device CL_DEVICE_PROFILE 0 none true)).size_ret)) false) (d 7 (Call.clGetDeviceInfo device CL_DEVICE_PROFILE (toUInt64 (d 6 (Call.clGetDeviceInfo device CL_DEVICE_PROFILE 0 none true)).size_ret) (if (d 7 (Call.malloc (toUInt64 (d 6 (Call.clGetDeviceInfo device CL_DEVICE_PROFILE 0 none true)).size_ret))).handle = 0 then none else some (toUInt64 (d 6 (Call.clGetDeviceInfo device CL_DEVICE_PROFILE 0 none true)).size_ret)) false)),
   Event.stdout ("Profile: " ++ fmt_s (if (d 7 (Call.malloc (toUInt64 (d 6 (Call.clGetDeviceInfo device CL_DEVICE_PROFILE 0 none true)).size_ret))).handle = 0 then none else some (toUInt64 (d 6 (Call.clGetDeviceInfo device CL_DEVICE_PROFILE 0 none true)).size_ret)) (memoryAfter (d 7 (Call.clGetDeviceInfo device CL_DEVICE_PROFILE (toUInt64 (d 6 (Call.clGetDeviceInfo device CL_DEVICE_PROFILE 0 none true)).size_ret) (if (d 7 (Call.malloc (toUInt64 (d 6 (Call.clGetDeviceInfo device CL_DEVICE_PROFILE 0 none true)).size_ret))).handle = 0 then none else some (toUInt64 (d 6 (Call.clGetDeviceInfo device CL_DEVICE_PROFILE 0 none true)).size_ret)) false)).data (d 7 (Call.malloc (toUInt64 (d 6 (Call.clGetDeviceInfo device CL_DEVICE_PROFILE 0 none true)).size_ret))).data) ++ "\n"),
   Event.call (Call.clGetDeviceInfo device CL_DEVICE_EXTENSIONS 0 none true) (d 8 (Call.clGetDeviceInfo device CL_DEVICE_EXTENSIONS 0 none true)),
   Event.call (Call.clGetDeviceInfo device CL_DEVICE_EXTENSIONS (toUInt64 (d 8 (Call.clGetDeviceInfo device CL_DEVICE_EXTENSIONS 0 none true)).size_ret) (if (d 9 (Call.malloc (toUInt64 (d 8 (Call.clGetDeviceInfo device CL_DEVICE_EXTENSIONS 0 none true)).size_ret))).handle = 0 then none else some (toUInt64 (d 8 (Call.clGetDeviceInfo device CL_DEVICE_EXTENSIONS 0 none true)).size_ret)) false) (d 9 (Call.clGetDeviceInfo device CL_DEVICE_EXTENSIONS (toUInt64 (d 8 (Call.clGetDeviceInfo device CL_DEVICE_EXTENSIONS 0 none true)).size_ret) (if (d 9 (Call.malloc (toUInt64 (d 8 (Call.clGetDeviceInfo device CL_DEVICE_EXTENSIONS 0 none true)).size_ret))).handle = 0 then none else some (toUInt64 (d 8 (Call.clGetDeviceInfo device CL_DEVICE_EXTENSIONS 0 none true)).size_ret)) false)),
   Event.stdout ("Extensions: " ++ fmt_s (if (d 9 (Call.malloc (toUInt64 (d 8 (Call.clGetDeviceInfo device CL_DEVICE_EXTENSIONS 0 none true)).size_ret))).handle = 0 then none else some (toUInt64 (d 8 (Call.clGetDeviceInfo device CL_DEVICE_EXTENSIONS 0 none true)).size_ret)) (memoryAfter (d 9 (Call.clGetDeviceInfo device CL_DEVICE_EXTENSIONS (toUInt64 (d 8 (Call.clGetDeviceInfo device CL_DEVICE_EXTENSIONS 0 none true)).size_ret) (if (d 9 (Call.malloc (toUInt64 (d 8 (Call.clGetDeviceInfo device CL_DEVICE_EXTENSIONS 0 none true)).size_ret))).handle = 0 then none else some (toUInt64 (d 8 (Call.clGetDeviceInfo device CL_DEVICE_EXTENSIONS 0 none true)).size_ret)) false)).data (d 9 (Call.malloc (toUInt64 (d 8 (Call.clGetDeviceInfo device CL_DEVICE_EXTENSIONS 0 none true)).size_ret))).data) ++ "\n"),
   Event.stdout ("\n\nGlobal Memory Cache\n"),
   Event.call (Call.clGetDeviceInfo device CL_DEVICE_GLOBAL_MEM_CACHE_SIZE 8 (some 8) false) (d 10 (Call.clGetDeviceInfo device CL_DEVICE_GLOBAL_MEM_CACHE_SIZE 8 (some 8) false)),
   Event.stdout ("\n\tSize: " ++ fmt_lu (toUInt64 ((d 10 (Call.clGetDeviceInfo device CL_DEVICE_GLOBAL_MEM_CACHE_SIZE 8 (some 8) false)).stored 0 (d 0 (Call.uninitialised "cacheSize" 0)).handle)) ++ "\n"),
   Event.call (Call.clGetDeviceInfo device CL_DEVICE_GLOBAL_MEM_CACHE_TYPE 4 (some 4) false) (d 11 (Call.clGetDeviceInfo device CL_DEVICE_GLOBAL_MEM_CACHE_TYPE 4 (some 4) false)),
   Event.stdout ("\n\tType: " ++ (if (toUInt32 ((d 11 (Call.clGetDeviceInfo device CL_DEVICE_GLOBAL_MEM_CACHE_TYPE 4 (some 4) false)).stored 0 (d 0 (Call.uninitialised "cacheType" 0)).handle)) = CL_NONE then "CL_NONE" else if (toUInt32 ((d 11 (Call.clGetDeviceInfo device CL_DEVICE_GLOBAL_MEM_CACHE_TYPE 4 (some 4) false)).stored 0 (d 0 (Call.uninitialised "cacheType" 0)).handle)) = CL_READ_ONLY_CACHE then "READ ONLY" else if (toUInt32 ((d 11 (Call.clGetDeviceInfo device CL_DEVICE_GLOBAL_MEM_CACHE_TYPE 4 (some 4) false)).stored 0 (d 0 (Call.uninitialised "cacheType" 0)).handle)) = CL_READ_WRITE_CACHE then "READ/WRITE" else "no type was found.") ++ "\n"),
   Event.call (Call.clGetDeviceInfo device CL_DEVICE_GLOBAL_MEM_CACHELINE_SIZE 4 (some 4) false) (d 12 (Call.clGetDeviceInfo device CL_DEVICE_GLOBAL_MEM_CACHELINE_SIZE 4 (some 4) false)),
   Event.stdout ("\n\tCacheline Size: " ++ fmt_d (toInt32 (toUInt32 ((d 12 (Call.clGetDeviceInfo device CL_DEVICE_GLOBAL_MEM_CACHELINE_SIZE 4 (some 4) false)).stored 0 (d 0 (Call.uninitialised "cacheLineSize" 0)).handle))) ++ "\n"),
   Event.stdout ("\n\nConstant Memory\n"),
   Event.call (Call.clGetDeviceInfo device CL_DEVICE_MAX_CONSTANT_BUFFER_SIZE 8 (some 8) false) (d 13 (Call.clGetDeviceInfo device CL_DEVICE_MAX_CONSTANT_BUFFER_SIZE 8 (some 8) false)),
   Event.stdout ("\n\tMax Constant Buffer Size: " ++ fmt_lu (toUInt64 ((d 13 (Call.clGetDeviceInfo device CL_DEVICE_MAX_CONSTANT_BUFFER_SIZE 8 (some 8) false)).stored 0 (toUInt64 ((d 10 (Call.clGetDeviceInfo device CL_DEVICE_GLOBAL_MEM_CACHE_SIZE 8 (some 8) false)).stored 0 (d 0 (Call.uninitialised "cacheSize" 0)).handle)))) ++ "\n"),
   Event.call (Call.clGetDeviceInfo device CL_DEVICE_MAX_CONSTANT_ARGS 4 (some 4) false) (d 14 (Call.clGetDeviceInfo device CL_DEVICE_MAX_CONSTANT_ARGS 4 (some 4) false)),
   Event.stdout ("\n\tMaximum number of constant arguments: " ++ fmt_d (toInt32 (toUInt32 ((d 14 (Call.clGetDeviceInfo device CL_DEVICE_MAX_CONSTANT_ARGS 4 (some 4) false)).stored 0 (toUInt32 ((d 12 (Call.clGetDeviceInfo device CL_DEVICE_GLOBAL_MEM_CACHELINE_SIZE 4 (some 4) false)).stored 0 (d 0 (Call.uninitialised "cacheLineSize" 0)).handle))))) ++ "\n"),
   Event.stdout ("\n\nLocal Memory\n"),
   Event.call (Call.clGetDeviceInfo device CL_DEVICE_LOCAL_MEM_SIZE 8 (some 8) false) (d 15 (Call.clGetDeviceInfo device CL_DEVICE_LOCAL_MEM_SIZE 8 (some 8) false)),
   Event.stdout ("\n\tSize: " ++ fmt_lu (toUInt64 ((d 15 (Call.clGetDeviceInfo device CL_DEVICE_LOCAL_MEM_SIZE 8 (some 8) false)).stored 0 (toUInt64 ((d 13 (Call.clGetDeviceInfo device CL_DEVICE_MAX_CONSTANT_BUFFER_SIZE 8 (some 8) false)).stored 0 (toUInt64 ((d 10 (Call.clGetDeviceInfo device CL_DEVICE_GLOBAL_MEM_CACHE_SIZE 8 (some 8) false)).stored 0 (d 0 (Call.uninitialised "cacheSize" 0)).handle)))))) ++ "\n"),
   Event.call (Call.clGetDeviceInfo device CL_DEVICE_LOCAL_MEM_TYPE 4 (some 4) false) (d 16 (Call.clGetDeviceInfo device CL_DEVICE_LOCAL_MEM_TYPE 4 (some 4) false)),
   Event.stdout (if (toUInt32 ((d 16 (Call.clGetDeviceInfo device CL_DEVICE_LOCAL_MEM_TYPE 4 (some 4) false)).stored 0 (d 0 (Call.uninitialised "localType" 0)).handle)) = CL_LOCAL then "\n\tType: CL_LOCAL\n" else "\n\tType: CL_GLOBAL\n"),
   Event.stdout ("\nOther Device Info\n"),
   Event.call (Call.clGetDeviceInfo device CL_DEVICE_MAX_WORK_GROUP_SIZE 8 (some 8) false) (d 17 (Call.clGetDeviceInfo device CL_DEVICE_MAX_WORK_GROUP_SIZE 8 (some 8) false)),
   Event.stdout ("\n\tMaximum Work-group Size: " ++ fmt_d (toInt32 (toUInt64 ((d 17 (Call.clGetDeviceInfo device CL_DEVICE_MAX_WORK_GROUP_SIZE 8 (some 8) false)).stored 0 (toUInt64 (d 8 (Call.clGetDeviceInfo device CL_DEVICE_EXTENSIONS 0 none true)).size_ret)))) ++ "\n"),
   Event.call (Call.clGetDeviceInfo device CL_DEVICE_MAX_WORK_ITEM_SIZES 24 (some 24) false) (d 18 (Call.clGetDeviceInfo device CL_DEVICE_MAX_WORK_ITEM_SIZES 24 (some 24) false)),
   Event.stdout ("\n\tMaximum Work-item Sizes: " ++ fmt_d_word (toUInt64 ((d 18 (Call.clGetDeviceInfo device CL_DEVICE_MAX_WORK_ITEM_SIZES 24 (some 24) false)).stored 0 (d 0 (Call.uninitialised "NDrange" 0)).handle)) ++ " , " ++ fmt_d_word (toUInt64 ((d 18 (Call.clGetDeviceInfo device CL_DEVICE_MAX_WORK_ITEM_SIZES 24 (some 24) false)).stored 1 (d 0 (Call.uninitialised "NDrange" 1)).handle)) ++ ", " ++ fmt_d_word (toUInt64 ((d 18 (Call.clGetDeviceInfo device CL_DEVICE_MAX_WORK_ITEM_SIZES 24 (some 24) false)).stored 2 (d 0 (Call.uninitialised "NDrange" 2)).handle)) ++ "\n"),
   Event.call (Call.clGetDeviceInfo device CL_DEVICE_MAX_WORK_ITEM_DIMENSIONS 4 (some 4) false) (d 19 (Call.clGetDeviceInfo device CL_DEVICE_MAX_WORK_ITEM_DIMENSIONS 4 (some 4) false)),
   Event.stdout ("\n\tMax Work-item Dimensions: " ++ fmt_d (toInt32 (toUInt32 ((d 19 (Call.clGetDeviceInfo device CL_DEVICE_MAX_WORK_ITEM_DIMENSIONS 4 (some 4) false)).stored 0 (toUInt32 ((d 14 (Call.clGetDeviceInfo device CL_DEVICE_MAX_CONSTANT_ARGS 4 (some 4) false)).stored 0 (toUInt32 ((d 12 (Call.clGetDeviceInfo device CL_DEVICE_GLOBAL_MEM_CACHELINE_SIZE 4 (some 4) false)).stored 0 (d 0 (Call.uninitialised "cacheLineSize" 0)).handle))))))) ++ "\n"),
   Event.call (Call.clGetDeviceInfo device CL_DEVICE_ADDRESS_BITS 4 (some 4) false) (d 20 (Call.clGetDeviceInfo device CL_DEVICE_ADDRESS_BITS 4 (some 4) false)),
   Event.stdout ("\n\tAddress Space: " ++ fmt_d (toInt32 (toUInt32 ((d 20 (Call.clGetDeviceInfo device CL_DEVICE_ADDRESS_BITS 4 (some 4) false)).stored 0 (toUInt32 ((d 19 (Call.clGetDeviceInfo device CL_DEVICE_MAX_WORK_ITEM_DIMENSIONS 4 (some 4) false)).stored 0 (toUInt32 ((d 14 (Call.clGetDeviceInfo device CL_DEVICE_MAX_CONSTANT_ARGS 4 (some 4) false)).stored 0 (toUInt32 ((d 12 (Call.clGetDeviceInfo device CL_DEVICE_GLOBAL_MEM_CACHELINE_SIZE 4 (some 4) false)).stored 0 (d 0 (Call.uninitialised "cacheLineSize" 0)).handle))))))))) ++ "\n"),
   Event.call (Call.clGetDeviceInfo device CL_DEVICE_MAX_MEM_ALLOC_SIZE 8 (some 8) false) (d 21 (Call.clGetDeviceInfo device CL_DEVICE_MAX_MEM_ALLOC_SIZE 8 (some 8) false)),
   Event.stdout ("\n\tMax Size of Memory Object Allocation: " ++ fmt_lu (toUInt64 ((d 21 (Call.clGetDeviceInfo device CL_DEVICE_MAX_MEM_ALLOC_SIZE 8 (some 8) false)).stored 0 (toUInt64 ((d 15 (Call.clGetDeviceInfo device CL_DEVICE_LOCAL_MEM_SIZE 8 (some 8) false)).stored 0 (toUInt64 ((d 13 (Call.clGetDeviceInfo device CL_DEVICE_MAX_CONSTANT_BUFFER_SIZE 8 (some 8) false)).stored 0 (toUInt64 ((d 10 (Call.clGetDeviceInfo device CL_DEVICE_GLOBAL_MEM_CACHE_SIZE 8 (some 8) false)).stored 0 (d 0 (Call.uninitialised "cacheSize" 0)).handle)))))))) ++ "\n"),
   Event.call (Call.clGetDeviceInfo device CL_DEVICE_MAX_PARAMETER_SIZE 8 (some 8) false) (d 22 (Call.clGetDeviceInfo device CL_DEVICE_MAX_PARAMETER_SIZE 8 (some 8) false)),
   Event.stdout ("\n\tMaximum Parameter Size: " ++ fmt_d (toInt32 (toUInt64 ((d 22 (Call.clGetDeviceInfo device CL_DEVICE_MAX_PARAMETER_SIZE 8 (some 8) false)).stored 0 (toUInt64 ((d 17 (Call.clGetDeviceInfo device CL_DEVICE_MAX_WORK_GROUP_SIZE 8 (some 8) false)).stored 0 (toUInt64 (d 8 (Call.clGetDeviceInfo device CL_DEVICE_EXTENSIONS 0 none true)).size_ret)))))) ++ "\n"),
   Event.call (Call.clGetDeviceInfo device CL_DEVICE_ENDIAN_LITTLE 4 (some 4) false) (d 23 (Call.clGetDeviceInfo device CL_DEVICE_ENDIAN_LITTLE 4 (some 4) false)),
   Event.stdout (if (toUInt32 ((d 23 (Call.clGetDeviceInfo device CL_DEVICE_ENDIAN_LITTLE 4 (some 4) false)).stored 0 (d 0 (Call.uninitialised "myBool" 0)).handle)) = CL_TRUE then "\n\tLittle Endian\n" else "\n\tBig Endian\n"),
   Event.call (Call.clGetDeviceInfo device CL_DEVICE_IMAGE_SUPPORT 4 (some 4) false) (d 24 (Call.clGetDeviceInfo device CL_DEVICE_IMAGE_SUPPORT 4 (some 4) false)),
   Event.stdout (if (toUInt32 ((d 24 (Call.clGetDeviceInfo device CL_DEVICE_IMAGE_SUPPORT 4 (some 4) false)).stored 0 (toUInt32 ((d 23 (Call.clGetDeviceInfo device CL_DEVICE_ENDIAN_LITTLE 4 (some 4) false)).stored 0 (d 0 (Call.uninitialised "myBool" 0)).handle)))) = CL_TRUE then "\n\tImages Supported\n" else "\n\tImages NOT Supported\n"),
   Event.stdout ("\n\n\n")]

end CL

/-! # Theorems -/

/-! ## Lemmas on traces -/

namespace CL

theorem callsOf_append (t u : List Event) : callsOf (t ++ u) = callsOf t ++ callsOf u := by
  induction t with
  | nil => rfl
  | cons e t ih => cases e <;> simp [callsOf, ih]

theorem stdoutOf_append (t u : List Event) : stdoutOf (t ++ u) = stdoutOf t ++ stdoutOf u := by
  induction t with
  | nil => rfl
  | cons e t ih => cases e <;> simp [stdoutOf, ih]

theorem stderrOf_append (t u : List Event) : stderrOf (t ++ u) = stderrOf t ++ stderrOf u := by
  induction t with
  | nil => rfl
  | cons e t ih => cases e <;> simp [stderrOf, ih]

theorem exitsOf_append (t u : List Event) : exitsOf (t ++ u) = exitsOf t ++ exitsOf u := by
  induction t with
  | nil => rfl
  | cons e t ih => cases e <;> simp [exitsOf, ih]

theorem Clean.stderr_nil {t : List Event} (h : Clean t) : stderrOf t = [] := by
  induction t with
  | nil => rfl
  | cons e t ih =>
    cases e with
    | call c a => exact ih h.2
    | stdout s => exact ih h
    | stderr s => exact absurd h (by simp [Clean])
    | exit n => exact absurd h (by simp [Clean])

theorem Clean.exits_nil {t : List Event} (h : Clean t) : exitsOf t = [] := by
  induction t with
  | nil => rfl
  | cons e t ih =>
    cases e with
    | call c a => exact ih h.2
    | stdout s => exact ih h
    | stderr s => exact absurd h (by simp [Clean])
    | exit n => exact absurd h (by simp [Clean])

theorem Clean.calls_ok {t : List Event} (h : Clean t) :
    ∀ ca ∈ callsOf t, ca.2.status = CL_SUCCESS := by
  induction t with
  | nil => simp [callsOf]
  | cons e t ih =>
    cases e with
    | call c a =>
      intro ca hca
      simp only [callsOf, List.mem_cons] at hca
      rcases hca with rfl | hca
      · exact h.1
      · exact ih h.2 ca hca
    | stdout s => exact ih h
    | stderr s => exact absurd h (by simp [Clean])
    | exit n => exact absurd h (by simp [Clean])

theorem Clean.beforeCall {t : List Event} (h : Clean t) (k : Nat) : Clean (beforeCall k t) := by
  induction t generalizing k with
  | nil => simp [CL.beforeCall, Clean]
  | cons e t ih =>
    cases e with
    | call c a =>
      cases k with
      | zero => simp [CL.beforeCall, Clean]
      | succ k => exact ⟨h.1, ih h.2 k⟩
    | stdout s => simpa [CL.beforeCall, Clean] using ih h k
    | stderr s => exact absurd h (by simp [Clean])
    | exit n => exact absurd h (by simp [Clean])

/-- When every call of the run succeeds, the run is the all-success run. -/
theorem lockstep_all_ok {d : Driver} {file : String} {str : Int → String} {sites : List Nat}
    {n : Nat} {t t' : List Event} (h : lockstep d file str sites n t t')
    (hok : ∀ ca ∈ callsOf t, ca.2.status = CL_SUCCESS) : t = t' ∧ Clean t := by
  induction t generalizing n t' with
  | nil =>
    cases t' with
    | nil => exact ⟨rfl, trivial⟩
    | cons e' t' => simp [lockstep] at h
  | cons e t ih =>
    cases t' with
    | nil => cases e <;> simp [lockstep] at h
    | cons e' t' =>
      cases e with
      | call c a =>
        cases e' with
        | call c' a' =>
          obtain ⟨hc, ha, ha', hrest⟩ := h
          have hs : a.status = CL_SUCCESS := hok (c, a) (by simp [callsOf])
          rw [if_pos hs] at hrest
          have := ih hrest (fun ca hca => hok ca (by simp [callsOf, hca]))
          refine ⟨?_, hs, this.2⟩
          have haa : a' = a := by
            rw [ha', ha]; rw [ha] at hs
            simp only [succeed]
            cases hd : d n c
            rw [hd] at hs
            simp only at hs
            simp [hs]
          rw [hc, haa, this.1]
        | stdout s => simp [lockstep] at h
        | stderr s => simp [lockstep] at h
        | exit m => simp [lockstep] at h
      | stdout s =>
        cases e' with
        | stdout s' =>
          obtain ⟨hs, hrest⟩ := h
          have := ih hrest (fun ca hca => hok ca (by simpa [callsOf] using hca))
          exact ⟨by rw [hs, this.1], this.2⟩
        | call c a => simp [lockstep] at h
        | stderr s => simp [lockstep] at h
        | exit m => simp [lockstep] at h
      | stderr s => simp [lockstep] at h
      | exit m => simp [lockstep] at h

end CL

namespace CL

theorem succeed_eq_self {d : Driver} {k : Nat} {c : Call} (h : (d k c).status = CL_SUCCESS) :
    succeed d k c = d k c := by
  simp only [succeed]
  cases hd : d k c
  rw [hd] at h
  simp only at h
  simp [h]

/-- When the `k`-th call of the run fails, the run is the all-success run up to
that call, then the call, its diagnostic and `exit(0)`. -/
theorem lockstep_fail {d : Driver} {file : String} {str : Int → String} {sites : List Nat}
    {n : Nat} {t t' : List Event} (h : lockstep d file str sites n t t')
    {k : Nat} {c : Call} {a : Answer} (hk : (callsOf t).get? k = some (c, a))
    (hne : a.status ≠ CL_SUCCESS) :
    t = beforeCall k t' ++ [Event.call c a,
      Event.stderr (diagnostic file (sites.getD (n + k) 0) (str a.status)), Event.exit 0] := by
  induction t generalizing n t' k with
  | nil => simp [callsOf] at hk
  | cons e t ih =>
    cases t' with
    | nil => cases e <;> simp [lockstep] at h
    | cons e' t' =>
      cases e with
      | call c0 a0 =>
        cases e' with
        | call c0' a0' =>
          obtain ⟨hc, ha, ha', hrest⟩ := h
          cases k with
          | zero =>
            simp only [callsOf, List.get?_cons_zero, Option.some.injEq, Prod.mk.injEq] at hk
            obtain ⟨rfl, rfl⟩ := hk
            rw [if_neg hne] at hrest
            simp [beforeCall, hrest]
          | succ k =>
            simp only [callsOf, List.get?_cons_succ] at hk
            by_cases hs : a0.status = CL_SUCCESS
            · rw [if_pos hs] at hrest
              have := ih hrest hk
              have haa : a0' = a0 := by
                rw [ha', ha]; rw [ha] at hs; exact succeed_eq_self hs
              rw [← hc, haa]
              simp only [beforeCall, List.cons_append, List.cons.injEq, true_and]
              rw [this]
              simp [Nat.add_assoc, Nat.add_comm 1 k]
            · rw [if_neg hs] at hrest
              rw [hrest] at hk
              simp [callsOf] at hk
        | stdout s => simp [lockstep] at h
        | stderr s => simp [lockstep] at h
        | exit m => simp [lockstep] at h
      | stdout s =>
        cases e' with
        | stdout s' =>
          obtain ⟨hs, hrest⟩ := h
          have := ih hrest (by simpa [callsOf] using hk)
          subst hs
          cases k <;> simp only [beforeCall, List.cons_append, List.cons.injEq, true_and] <;>
            exact this
        | call c a => simp [lockstep] at h
        | stderr s => simp [lockstep] at h
        | exit m => simp [lockstep] at h
      | stderr s => simp [lockstep] at h
      | exit m => simp [lockstep] at h

/-- The fail-fast protocol follows from the lockstep walk. -/
theorem failFast_of_lockstep {d : Driver} {file : String} {str : Int → String}
    {sites : List Nat} {t t' : List Event} (h : lockstep d file str sites 0 t t')
    (hc : Clean t') : FailFast file str sites t t' := by
  constructor
  · intro hok
    obtain ⟨h1, h2⟩ := lockstep_all_ok h hok
    exact ⟨h1, h2.stderr_nil, h2.exits_nil⟩
  · intro k c a hk hne
    have ht := lockstep_fail h hk hne
    rw [Nat.zero_add] at ht
    have hpre : Clean (beforeCall k t') := hc.beforeCall k
    have hcalls : callsOf t = callsOf (beforeCall k t') ++ [(c, a)] := by
      conv_lhs => rw [ht]
      simp [callsOf_append, callsOf]
    have hlen : (callsOf (beforeCall k t')).length = k := by
      rw [hcalls] at hk
      rcases Nat.lt_trichotomy k (callsOf (beforeCall k t')).length with hlt | heq | hgt
      · rw [List.get?_eq_getElem?, List.getElem?_append_left hlt] at hk
        have hmem : (c, a) ∈ callsOf (beforeCall k t') := List.getElem?_mem hk
        exact absurd (hpre.calls_ok _ hmem) hne
      · exact heq.symm
      · rw [List.get?_eq_getElem?, List.getElem?_eq_none (by simp; omega)] at hk
        exact absurd hk (by simp)
    refine ⟨by rw [hcalls]; simp [hlen], ?_, ht, ?_, ?_, ?_⟩
    · intro ca hca
      rw [hcalls, List.take_append_of_le_length (by omega), List.take_of_length_le (by omega)] at hca
      exact hpre.calls_ok ca hca
    · conv_lhs => rw [ht]
      simp [stdoutText, stdoutOf_append, stdoutOf]
    · conv_lhs => rw [ht]
      simp [stderrOf_append, stderrOf, hpre.stderr_nil]
    · conv_lhs => rw [ht]
      simp [exitsOf_append, exitsOf, hpre.exits_nil]

/-- What a run prints on standard output is the start of what the all-success
run prints. -/
theorem lockstep_stdout_prefix {d : Driver} {file : String} {str : Int → String}
    {sites : List Nat} {n : Nat} {t t' : List Event}
    (h : lockstep d file str sites n t t') : stdoutOf t <+: stdoutOf t' := by
  induction t generalizing n t' with
  | nil =>
    cases t' with
    | nil => exact List.prefix_refl _
    | cons e' t' => simp [lockstep] at h
  | cons e t ih =>
    cases t' with
    | nil => cases e <;> simp [lockstep] at h
    | cons e' t' =>
      cases e with
      | call c a =>
        cases e' with
        | call c' a' =>
          obtain ⟨-, -, -, hrest⟩ := h
          show stdoutOf t <+: stdoutOf t'
          by_cases hs : a.status = CL_SUCCESS
          · rw [if_pos hs] at hrest
            exact ih hrest
          · rw [if_neg hs] at hrest
            rw [hrest]
            exact List.nil_prefix
        | stdout s => simp [lockstep] at h
        | stderr s => simp [lockstep] at h
        | exit m => simp [lockstep] at h
      | stdout s =>
        cases e' with
        | stdout s' =>
          obtain ⟨hs, hrest⟩ := h
          subst hs
          exact (List.cons_prefix_cons).mpr ⟨rfl, ih hrest⟩
        | call c a => simp [lockstep] at h
        | stderr s => simp [lockstep] at h
        | exit m => simp [lockstep] at h
      | stderr s => simp [lockstep] at h
      | exit m => simp [lockstep] at h

/-- Two runs under one driver that walk along the same all-success run agree up
to the site named in the diagnostic. -/
theorem sameUpToSite_of_lockstep {d : Driver} {f1 f2 : String} {str : Int → String}
    {s1 s2 : List Nat} {n : Nat} {t1 t2 t' : List Event}
    (h1 : lockstep d f1 str s1 n t1 t') (h2 : lockstep d f2 str s2 n t2 t') :
    SameUpToSite f1 f2 t1 t2 := by
  induction t1 generalizing n t2 t' with
  | nil =>
    cases t' with
    | nil =>
      cases t2 with
      | nil => trivial
      | cons e2 t2 => cases e2 <;> simp [lockstep] at h2
    | cons e' t' => simp [lockstep] at h1
  | cons e1 t1 ih =>
    cases t' with
    | nil => cases e1 <;> simp [lockstep] at h1
    | cons e' t' =>
      cases t2 with
      | nil => simp [lockstep] at h2
      | cons e2 t2 =>
        cases e1 with
        | call c1 a1 =>
          cases e' with
          | call c' a' =>
            cases e2 with
            | call c2 a2 =>
              obtain ⟨hc1, ha1, -, r1⟩ := h1
              obtain ⟨hc2, ha2, -, r2⟩ := h2
              have hcc : c1 = c2 := hc1.trans hc2.symm
              have haa : a1 = a2 := by rw [ha1, ha2, hcc]
              subst hcc; subst haa
              refine ⟨Or.inl rfl, ?_⟩
              by_cases hs : a1.status = CL_SUCCESS
              · rw [if_pos hs] at r1 r2
                exact ih r1 r2
              · rw [if_neg hs] at r1 r2
                rw [r1, r2]
                exact ⟨Or.inr ⟨_, _, _, rfl, rfl⟩, Or.inl rfl, trivial⟩
            | stdout s => simp [lockstep] at h2
            | stderr s => simp [lockstep] at h2
            | exit m => simp [lockstep] at h2
          | stdout s => simp [lockstep] at h1
          | stderr s => simp [lockstep] at h1
          | exit m => simp [lockstep] at h1
        | stdout s =>
          cases e' with
          | stdout s' =>
            cases e2 with
            | stdout s2 =>
              obtain ⟨hs1, r1⟩ := h1
              obtain ⟨hs2, r2⟩ := h2
              exact ⟨Or.inl (by rw [hs1, hs2]), ih r1 r2⟩
            | call c a => simp [lockstep] at h2
            | stderr s => simp [lockstep] at h2
            | exit m => simp [lockstep] at h2
          | call c a => simp [lockstep] at h1
          | stderr s => simp [lockstep] at h1
          | exit m => simp [lockstep] at h1
        | stderr s => simp [lockstep] at h1
        | exit m => simp [lockstep] at h1

theorem SameUpToSite.calls_eq {f1 f2 : String} {t1 t2 : List Event}
    (h : SameUpToSite f1 f2 t1 t2) : callsOf t1 = callsOf t2 := by
  induction t1 generalizing t2 with
  | nil =>
    cases t2 with
    | nil => rfl
    | cons e2 t2 => simp [SameUpToSite] at h
  | cons e1 t1 ih =>
    cases t2 with
    | nil => simp [SameUpToSite] at h
    | cons e2 t2 =>
      obtain ⟨he, hr⟩ := h
      rcases he with rfl | ⟨l1, l2, name, rfl, rfl⟩
      · cases e1 <;> simp [callsOf, ih hr]
      · simp [callsOf, ih hr]

theorem SameUpToSite.stdout_eq {f1 f2 : String} {t1 t2 : List Event}
    (h : SameUpToSite f1 f2 t1 t2) : stdoutOf t1 = stdoutOf t2 := by
  induction t1 generalizing t2 with
  | nil =>
    cases t2 with
    | nil => rfl
    | cons e2 t2 => simp [SameUpToSite] at h
  | cons e1 t1 ih =>
    cases t2 with
    | nil => simp [SameUpToSite] at h
    | cons e2 t2 =>
      obtain ⟨he, hr⟩ := h
      rcases he with rfl | ⟨l1, l2, name, rfl, rfl⟩
      · cases e1 <;> simp [stdoutOf, ih hr]
      · simp [stdoutOf, ih hr]

end CL

/-! ## Stepping through a program -/

namespace CL

theorem numCalls_append (t u : List Event) : numCalls (t ++ u) = numCalls t + numCalls u := by
  induction t with
  | nil => simp [numCalls]
  | cons e t ih => cases e <;> simp [numCalls, ih]; omega

theorem Clean.append {t u : List Event} (ht : Clean t) (hu : Clean u) : Clean (t ++ u) := by
  induction t with
  | nil => simpa using hu
  | cons e t ih =>
    cases e with
    | call c a => exact ⟨ht.1, ih ht.2⟩
    | stdout s => exact ih ht
    | stderr s => exact absurd ht (by simp [Clean])
    | exit n => exact absurd ht (by simp [Clean])

theorem fails_extend {d : Driver} {file : String} {str : Int → String} {sites : List Nat}
    {n : Nat} {r r' : List Event} (h : Fails d file str sites n r r') (x : List Event) :
    Fails d file str sites n r (r' ++ x) := by
  induction r generalizing n r' with
  | nil => cases r' <;> simp [Fails] at h
  | cons e r ih =>
    cases r' with
    | nil => cases e <;> simp [Fails] at h
    | cons e' r' =>
      cases e with
      | call c a =>
        cases e' with
        | call c' a' =>
          obtain ⟨hc, ha, ha', hrest⟩ := h
          refine ⟨hc, ha, ha', ?_⟩
          by_cases hs : a.status = CL_SUCCESS
          · rw [if_pos hs] at hrest ⊢
            exact ih hrest
          · rw [if_neg hs] at hrest ⊢
            exact hrest
        | stdout s => simp [Fails] at h
        | stderr s => simp [Fails] at h
        | exit m => simp [Fails] at h
      | stdout s =>
        cases e' with
        | stdout s' => exact ⟨h.1, ih h.2⟩
        | call c a => simp [Fails] at h
        | stderr s => simp [Fails] at h
        | exit m => simp [Fails] at h
      | stderr s => simp [Fails] at h
      | exit m => simp [Fails] at h

theorem fails_lockstep {d : Driver} {file : String} {str : Int → String} {sites : List Nat}
    {n : Nat} {r r' : List Event} (h : Fails d file str sites n r r') :
    lockstep d file str sites n r r' := by
  induction r generalizing n r' with
  | nil => cases r' <;> simp [Fails] at h
  | cons e r ih =>
    cases r' with
    | nil => cases e <;> simp [Fails] at h
    | cons e' r' =>
      cases e with
      | call c a =>
        cases e' with
        | call c' a' =>
          obtain ⟨hc, ha, ha', hrest⟩ := h
          refine ⟨hc, ha, ha', ?_⟩
          by_cases hs : a.status = CL_SUCCESS
          · rw [if_pos hs] at hrest ⊢
            exact ih hrest
          · rw [if_neg hs] at hrest ⊢
            exact hrest
        | stdout s => simp [Fails] at h
        | stderr s => simp [Fails] at h
        | exit m => simp [Fails] at h
      | stdout s =>
        cases e' with
        | stdout s' => exact ⟨h.1, ih h.2⟩
        | call c a => simp [Fails] at h
        | stderr s => simp [Fails] at h
        | exit m => simp [Fails] at h
      | stderr s => simp [Fails] at h
      | exit m => simp [Fails] at h

/-- A shared all-success prefix in front of a failing walk. -/
theorem fails_prepend {d : Driver} {file : String} {str : Int → String} {sites : List Nat}
    {n : Nat} {p r r' : List Event} (hp : lockstep d file str sites n p p)
    (h : Fails d file str sites (n + numCalls p) r r') :
    Fails d file str sites n (p ++ r) (p ++ r') := by
  induction p generalizing n with
  | nil => simpa [numCalls] using h
  | cons e p ih =>
    cases e with
    | call c a =>
      obtain ⟨-, ha, ha', hrest⟩ := hp
      have hs : a.status = CL_SUCCESS := by rw [ha']; rfl
      rw [if_pos hs] at hrest
      refine ⟨rfl, ha, ha', ?_⟩
      rw [if_pos hs]
      apply ih hrest
      have : n + 1 + numCalls p = n + numCalls (Event.call c a :: p) := by
        simp [numCalls]; omega
      rw [this]; exact h
    | stdout s =>
      refine ⟨rfl, ih hp.2 ?_⟩
      simpa [numCalls] using h
    | stderr s => simp [lockstep] at hp
    | exit m => simp [lockstep] at hp

/-- Two all-success pieces in a row. -/
theorem lockstep_self_append {d : Driver} {file : String} {str : Int → String}
    {sites : List Nat} {n : Nat} {p r : List Event} (hp : lockstep d file str sites n p p)
    (h : lockstep d file str sites (n + numCalls p) r r) :
    lockstep d file str sites n (p ++ r) (p ++ r) := by
  induction p generalizing n with
  | nil => simpa [numCalls] using h
  | cons e p ih =>
    cases e with
    | call c a =>
      obtain ⟨-, ha, ha', hrest⟩ := hp
      have hs : a.status = CL_SUCCESS := by rw [ha']; rfl
      rw [if_pos hs] at hrest
      refine ⟨rfl, ha, ha', ?_⟩
      rw [if_pos hs]
      apply ih hrest
      have : n + 1 + numCalls p = n + numCalls (Event.call c a :: p) := by
        simp [numCalls]; omega
      rw [this]; exact h
    | stdout s =>
      refine ⟨rfl, ih hp.2 ?_⟩
      simpa [numCalls] using h
    | stderr s => simp [lockstep] at hp
    | exit m => simp [lockstep] at hp

theorem Prog.bind_eq {α β : Type} (p : Prog α) (f : α → Prog β) :
    (p >>= f) = Prog.bind p f := rfl

theorem Prog.pure_eq {α : Type} (a : α) : (pure a : Prog α) = Prog.pure a := rfl

section Rules

variable {d : Driver} {file : String} {str : Int → String} {sites : List Nat}

theorem walks_pure {α : Type} (n : Nat) (a : α) :
    Walks d file str sites n n (Prog.pure a) := by
  intro u u' _ _
  exact ⟨a, [], by simp [Prog.pure], by simp [numCalls], trivial,
    Or.inl ⟨by simp [Prog.pure], trivial⟩⟩

theorem walks_printf (n : Nat) (s : String) :
    Walks d file str sites n n (printf s) := by
  intro u u' _ _
  exact ⟨(), [Event.stdout s], rfl, by simp [numCalls], trivial, Or.inl ⟨rfl, rfl, trivial⟩⟩

theorem walks_return {α : Type} (n : Nat) (a : α) :
    Walks d file str sites n n (pure a : Prog α) :=
  walks_pure n a

theorem walks_malloc (n : Nat) (size : Nat) :
    Walks d file str sites n n (malloc size) := by
  intro u u' hu hu'
  refine ⟨(if (d n (Call.malloc size)).handle = 0 then none else some size,
    (d n (Call.malloc size)).data), [], ?_, by simp [numCalls], trivial, Or.inl ⟨?_, trivial⟩⟩
  · simp only [malloc, hu', List.append_nil]; rfl
  · simp only [malloc, hu, List.append_nil]

theorem walks_uninitialised (n : Nat) (object : String) (index : Nat) :
    Walks d file str sites n n (uninitialised object index) := by
  intro u u' _ _
  refine ⟨(d 0 (Call.uninitialised object index)).handle, [], ?_, by simp [numCalls], trivial,
    Or.inl ⟨?_, trivial⟩⟩
  · simp only [uninitialised, List.append_nil]; rfl
  · simp only [uninitialised, List.append_nil]

theorem walks_ite {α : Type} {n m : Nat} (c : Prop) [Decidable c] {p q : Prog α}
    (hp : Walks d file str sites n m p) (hq : Walks d file str sites n m q) :
    Walks d file str sites n m (if c then p else q) := by
  split
  · exact hp
  · exact hq

theorem walks_bind {α β : Type} {n m l : Nat} {p : Prog α} {f : α → Prog β}
    (hp : Walks d file str sites n m p) (hf : ∀ a, Walks d file str sites m l (f a)) :
    Walks d file str sites n l (Prog.bind p f) := by
  intro u u' hu hu'
  obtain ⟨a, r', hs, hm, hc, hd⟩ := hp u u' hu hu'
  have hn' : numCalls (u' ++ r') = m := by rw [numCalls_append, hu', hm]
  rcases hd with ⟨hok, hl⟩ | ⟨r, hex, hfail⟩
  · have hn : numCalls (u ++ r') = m := by rw [numCalls_append, hu, hm]
    obtain ⟨b, r2', hs2, hm2, hc2, hd2⟩ := hf a (u ++ r') (u' ++ r') hn hn'
    refine ⟨b, r' ++ r2', ?_, ?_, hc.append hc2, ?_⟩
    · simp only [Prog.bind, hs, hs2, List.append_assoc]
    · rw [numCalls_append]; omega
    · rcases hd2 with ⟨hok2, hl2⟩ | ⟨r2, hex2, hfail2⟩
      · left
        refine ⟨by simp only [Prog.bind, hok, hok2, List.append_assoc], ?_⟩
        exact lockstep_self_append hl (by rw [hm]; exact hl2)
      · right
        refine ⟨r' ++ r2, by simp only [Prog.bind, hok, hex2, List.append_assoc], ?_⟩
        exact fails_prepend hl (by rw [hm]; exact hfail2)
  · obtain ⟨b, r2', hs2, hm2, hc2, -⟩ := hf a (u' ++ r') (u' ++ r') hn' hn'
    refine ⟨b, r' ++ r2', ?_, ?_, hc.append hc2, Or.inr ⟨r, ?_, fails_extend hfail r2'⟩⟩
    · simp only [Prog.bind, hs, hs2, List.append_assoc]
    · rw [numCalls_append]; omega
    · simp only [Prog.bind, hex]

/-- An API call followed by its status check `chk`. -/
theorem walks_call {β : Type} {n m : Nat} {chk : Nat → Int → Prog Unit}
    (hchk : ∀ line st e t, chk line st e t =
      if st = CL_SUCCESS then Result.ok () t
      else Result.exited (t ++ [Event.stderr (diagnostic file line (str st)), Event.exit 0]))
    (c : Call) (line : Nat) (hline : sites.getD n 0 = line) {K : Answer → Prog β}
    (hK : ∀ a, Walks d file str sites (n + 1) m (K a)) :
    Walks d file str sites n m
      (Prog.bind (apiCall c) (fun r => Prog.bind (chk line r.status) (fun _ => K r))) := by
  intro u u' hu hu'
  have hn' : numCalls (u' ++ [Event.call c (succeed d n c)]) = n + 1 := by
    rw [numCalls_append, hu']; rfl
  have hsucc : Prog.bind (apiCall c) (fun r => Prog.bind (chk line r.status) (fun _ => K r))
      (succeed d) u' = K (succeed d n c) (succeed d) (u' ++ [Event.call c (succeed d n c)]) := by
    simp only [Prog.bind, apiCall, hu', hchk]
    have h0 : (succeed d n c).status = CL_SUCCESS := rfl
    rw [if_pos h0]
  by_cases hs : (d n c).status = CL_SUCCESS
  · have heq : succeed d n c = d n c := succeed_eq_self hs
    have hn : numCalls (u ++ [Event.call c (d n c)]) = n + 1 := by
      rw [numCalls_append, hu]; rfl
    rw [heq] at hsucc hn'
    obtain ⟨b, r2', hs2, hm2, hc2, hd2⟩ := hK (d n c) _ _ hn hn'
    have hrun : Prog.bind (apiCall c) (fun r => Prog.bind (chk line r.status) (fun _ => K r))
        d u = K (d n c) d (u ++ [Event.call c (d n c)]) := by
      simp only [Prog.bind, apiCall, hu, hchk]
      rw [if_pos hs]
    refine ⟨b, Event.call c (d n c) :: r2', ?_, ?_, ⟨hs, hc2⟩, ?_⟩
    · rw [hsucc, hs2]; simp
    · simp only [numCalls]; omega
    · rcases hd2 with ⟨hok2, hl2⟩ | ⟨r2, hex2, hfail2⟩
      · left
        refine ⟨by rw [hrun, hok2]; simp, rfl, rfl, heq.symm, ?_⟩
        rw [if_pos hs]; exact hl2
      · right
        refine ⟨Event.call c (d n c) :: r2, by rw [hrun, hex2]; simp, rfl, rfl, heq.symm, ?_⟩
        rw [if_pos hs]; exact hfail2
  · obtain ⟨b, r2', hs2, hm2, hc2, -⟩ := hK (succeed d n c) _ _ hn' hn'
    refine ⟨b, Event.call c (succeed d n c) :: r2', ?_, ?_, ⟨rfl, hc2⟩, Or.inr ?_⟩
    · rw [hsucc, hs2]; simp
    · simp only [numCalls]; omega
    · refine ⟨[Event.call c (d n c), Event.stderr (diagnostic file line (str (d n c).status)),
        Event.exit 0], ?_, rfl, rfl, rfl, ?_⟩
      · simp only [Prog.bind, apiCall, hu, hchk]
        rw [if_neg hs]; simp
      · rw [if_neg hs, hline]

/-- From a walk of the whole program to the lockstep of its two runs. -/
theorem walks_run_lockstep {α : Type} {m : Nat} {p : Prog α}
    (h : Walks d file str sites 0 m p) :
    lockstep d file str sites 0 (run p d).trace (run p (succeed d)).trace ∧
      Clean (run p (succeed d)).trace ∧ (run p (succeed d)).returned = true := by
  obtain ⟨a, r', hs, -, hc, hd⟩ := h [] [] rfl rfl
  simp only [run, hs, Result.trace, Result.returned, List.nil_append]
  refine ⟨?_, hc, trivial⟩
  rcases hd with ⟨hok, hl⟩ | ⟨r, hex, hfail⟩
  · simpa only [hok, Result.trace, List.nil_append] using hl
  · simpa only [hex, Result.trace, List.nil_append] using fails_lockstep hfail

end Rules

end CL

attribute [irreducible] CL.Clean CL.lockstep CL.Fails

theorem openclUtils_check_apply (line : Nat) (st : Int) (e : Driver) (t : List Event) :
    OpenclUtils.CHECK_STATUS line st e t =
      if st = CL_SUCCESS then Result.ok () t
      else Result.exited (t ++ [Event.stderr (diagnostic OpenclUtils.FILE line
        (OpenclUtils.opencl_error_to_str st)), Event.exit 0]) := by
  unfold OpenclUtils.CHECK_STATUS
  by_cases h : st = CL_SUCCESS
  · rw [if_neg (not_not.mpr h), if_pos h]; rfl
  · rw [if_pos h, if_neg h]
    simp [Prog.bind, fprintf_stderr, exit, Prog.bind_eq]

theorem openclUtils_platform_walks (d : Driver) (platform : Nat) :
    ∃ m, Walks d OpenclUtils.FILE OpenclUtils.opencl_error_to_str
      [97, 102, 97, 102, 97, 102, 97, 102, 97, 102] 0 m
      (OpenclUtils.query_platform_info platform) := by
  apply Exists.intro
  unfold OpenclUtils.query_platform_info
  simp only [forLoop, clGetPlatformInfo, Prog.bind_eq, Prog.pure_eq]
  repeat (first
    | with_reducible exact walks_printf _ _
    | with_reducible exact walks_pure _ _
    | with_reducible exact walks_return _ _
    | with_reducible exact walks_malloc _ _
    | with_reducible exact walks_uninitialised _ _ _
    | with_reducible apply walks_call openclUtils_check_apply
    | with_reducible apply walks_bind
    | with_reducible intro _
    | rfl)

set_option maxRecDepth 4000 in
theorem openclUtils_device_walks (d : Driver) (device : Nat) :
    ∃ m, Walks d OpenclUtils.FILE OpenclUtils.opencl_error_to_str
      [146, 151, 146, 151, 146, 151, 146, 151, 146, 151, 165, 170, 184, 191, 195, 202, 207,
        220, 226, 231, 235, 239, 243, 248, 257] 0 m
      (OpenclUtils.query_device_info device) := by
  apply Exists.intro
  unfold OpenclUtils.query_device_info
  simp only [forLoop, clGetDeviceInfo, Prog.bind_eq, Prog.pure_eq]
  repeat (first
    | with_reducible exact walks_printf _ _
    | with_reducible exact walks_pure _ _
    | with_reducible exact walks_return _ _
    | with_reducible exact walks_malloc _ _
    | with_reducible exact walks_uninitialised _ _ _
    | with_reducible apply walks_call openclUtils_check_apply
    | with_reducible apply walks_ite
    | with_reducible apply walks_bind
    | with_reducible intro _
    | rfl)

theorem getInfo_check_apply (line : Nat) (st : Int) (e : Driver) (t : List Event) :
    GetInfo.CHECK_STATUS line st e t =
      if st = CL_SUCCESS then Result.ok () t
      else Result.exited (t ++ [Event.stderr (diagnostic GetInfo.FILE line
        (GetInfo.opencl_error_to_str st)), Event.exit 0]) := by
  unfold GetInfo.CHECK_STATUS
  by_cases h : st = CL_SUCCESS
  · rw [if_neg (not_not.mpr h), if_pos h]; rfl
  · rw [if_pos h, if_neg h]
    simp [Prog.bind, fprintf_stderr, exit, Prog.bind_eq]

theorem getInfo_platform_walks (d : Driver) (platform : Nat) :
    ∃ m, Walks d GetInfo.FILE GetInfo.opencl_error_to_str
      [84, 89, 84, 89, 84, 89, 84, 89, 84, 89] 0 m
      (GetInfo.query_platform_info platform) := by
  apply Exists.intro
  unfold GetInfo.query_platform_info
  simp only [forLoop, clGetPlatformInfo, Prog.bind_eq, Prog.pure_eq]
  repeat (first
    | with_reducible exact walks_printf _ _
    | with_reducible exact walks_pure _ _
    | with_reducible exact walks_return _ _
    | with_reducible exact walks_malloc _ _
    | with_reducible exact walks_uninitialised _ _ _
    | with_reducible apply walks_call getInfo_check_apply
    | with_reducible apply walks_bind
    | with_reducible intro _
    | rfl)

set_option maxRecDepth 4000 in
theorem getInfo_device_walks (d : Driver) (device : Nat) :
    ∃ m, Walks d GetInfo.FILE GetInfo.opencl_error_to_str
      [128, 133, 128, 133, 128, 133, 128, 133, 128, 133, 147, 154, 169, 178, 182, 192, 197,
        211, 221, 229, 234, 239, 243, 248, 257] 0 m
      (GetInfo.query_device_info device) := by
  apply Exists.intro
  unfold GetInfo.query_device_info
  simp only [forLoop, clGetDeviceInfo, Prog.bind_eq, Prog.pure_eq]
  repeat (first
    | with_reducible exact walks_printf _ _
    | with_reducible exact walks_pure _ _
    | with_reducible exact walks_return _ _
    | with_reducible exact walks_malloc _ _
    | with_reducible exact walks_uninitialised _ _ _
    | with_reducible apply walks_call getInfo_check_apply
    | with_reducible apply walks_ite
    | with_reducible apply walks_bind
    | with_reducible intro _
    | rfl)

/-! ## All-success runs, event by event -/

namespace CL

section EmitRules

variable {d : Driver}

theorem emits_pure {α : Type} (n : Nat) (a : α) (l : List Event) :
    Emits d n n (Prog.pure a) a l l :=
  ⟨[], rfl, rfl, fun u _ => by simp [Prog.pure]⟩

theorem emits_printf (n : Nat) (s : String) (l : List Event) :
    Emits d n n (printf s) () (Event.stdout s :: l) l :=
  ⟨[Event.stdout s], rfl, rfl, fun _ _ => rfl⟩

theorem emits_return {α : Type} (n : Nat) (a : α) (l : List Event) :
    Emits d n n (pure a : Prog α) a l l :=
  emits_pure n a l

theorem emits_malloc (n : Nat) (size : Nat) (l : List Event) :
    Emits d n n (malloc size)
      (if (d n (Call.malloc size)).handle = 0 then none else some size,
        (d n (Call.malloc size)).data) l l :=
  ⟨[], rfl, rfl, fun u hu => by simp only [malloc, hu, List.append_nil]⟩

theorem emits_uninitialised (n : Nat) (object : String) (index : Nat) (l : List Event) :
    Emits d n n (uninitialised object index) (d 0 (Call.uninitialised object index)).handle
      l l :=
  ⟨[], rfl, rfl, fun u _ => by simp only [uninitialised, List.append_nil]⟩

theorem emits_bind {α β : Type} {n m k : Nat} {p : Prog α} {f : α → Prog β} {a : α} {b : β}
    {l l1 l2 : List Event} (hp : Emits d n m p a l l1) (hf : Emits d m k (f a) b l1 l2) :
    Emits d n k (Prog.bind p f) b l l2 := by
  obtain ⟨r, hl, hm, hr⟩ := hp
  obtain ⟨r2, hl2, hk, hr2⟩ := hf
  refine ⟨r ++ r2, by rw [hl, hl2, List.append_assoc], by rw [numCalls_append]; omega, ?_⟩
  intro u hu
  have h2 := hr2 (u ++ r) (by rw [numCalls_append, hu, hm])
  simp only [Prog.bind, hr u hu, h2, List.append_assoc]

theorem emits_ite {α : Type} {n m : Nat} (c : Prop) [Decidable c] {p q : Prog α} {a : α}
    {l l' : List Event} (hp : c → Emits d n m p a l l') (hq : ¬c → Emits d n m q a l l') :
    Emits d n m (if c then p else q) a l l' := by
  split
  · exact hp ‹_›
  · exact hq ‹_›

theorem emits_call {β : Type} {n m : Nat} {file : String} {str : Int → String}
    {chk : Nat → Int → Prog Unit}
    (hchk : ∀ line st e t, chk line st e t =
      if st = CL_SUCCESS then Result.ok () t
      else Result.exited (t ++ [Event.stderr (diagnostic file line (str st)), Event.exit 0]))
    (hall : ∀ k c, (d k c).status = CL_SUCCESS) {c : Call} {line : Nat}
    {K : Answer → Prog β} {b : β} {l l' : List Event}
    (h : Emits d (n + 1) m (K (d n c)) b l l') :
    Emits d n m (Prog.bind (apiCall c) (fun x => Prog.bind (chk line x.status) (fun _ => K x)))
      b (Event.call c (d n c) :: l) l' := by
  obtain ⟨r, hl, hm, hr⟩ := h
  refine ⟨Event.call c (d n c) :: r, by rw [hl]; rfl, by simp only [numCalls]; omega, ?_⟩
  intro u hu
  have := hr (u ++ [Event.call c (d n c)]) (by rw [numCalls_append, hu]; rfl)
  simp only [Prog.bind, apiCall, hu, hchk]
  rw [if_pos (hall n c)]
  simpa using this

theorem Emits.run_eq {α : Type} {m : Nat} {p : Prog α} {a : α} {l : List Event}
    (h : Emits d 0 m p a l []) : run p d = Result.ok a l := by
  obtain ⟨r, hl, -, hr⟩ := h
  rw [List.append_nil] at hl
  rw [hl]
  simpa [run] using hr [] rfl

end EmitRules

end CL

theorem openclUtils_platform_emits (d : Driver) (platform : Nat)
    (hall : ∀ k c, (d k c).status = CL_SUCCESS) :
    ∃ m, Emits d 0 m (OpenclUtils.query_platform_info platform) () (platformTrace d platform) [] := by
  apply Exists.intro
  unfold OpenclUtils.query_platform_info platformTrace
  simp only [forLoop, clGetPlatformInfo, Prog.bind_eq, Prog.pure_eq]
  repeat (first
    | exact emits_printf _ _ _
    | exact emits_pure _ _ _
    | exact emits_return _ _ _
    | exact emits_malloc _ _ _
    | exact emits_uninitialised _ _ _ _
    | apply emits_call openclUtils_check_apply hall
    | apply emits_bind)

set_option maxRecDepth 4000 in
theorem openclUtils_device_emits (d : Driver) (device : Nat)
    (hall : ∀ k c, (d k c).status = CL_SUCCESS) :
    ∃ m, Emits d 0 m (OpenclUtils.query_device_info device) () (deviceTrace d device) [] := by
  apply Exists.intro
  unfold OpenclUtils.query_device_info deviceTrace
  simp only [forLoop, clGetDeviceInfo, Prog.bind_eq, Prog.pure_eq]
  repeat (first
    | exact emits_printf _ _ _
    | exact emits_pure _ _ _
    | exact emits_return _ _ _
    | exact emits_malloc _ _ _
    | exact emits_uninitialised _ _ _ _
    | apply emits_call openclUtils_check_apply hall
    | (apply emits_ite <;> intro hc <;> simp only [hc, if_true, if_false])
    | apply emits_bind)

/-- The all-success run of `query_platform_info`. -/
theorem openclUtils_platform_run (d : Driver) (platform : Nat)
    (hall : ∀ k c, (d k c).status = CL_SUCCESS) :
    run (OpenclUtils.query_platform_info platform) d = Result.ok () (platformTrace d platform) := by
  obtain ⟨m, h⟩ := openclUtils_platform_emits d platform hall
  exact h.run_eq

/-- The all-success run of `query_device_info`. -/
theorem openclUtils_device_run (d : Driver) (device : Nat)
    (hall : ∀ k c, (d k c).status = CL_SUCCESS) :
    run (OpenclUtils.query_device_info device) d = Result.ok () (deviceTrace d device) := by
  obtain ⟨m, h⟩ := openclUtils_device_emits d device hall
  exact h.run_eq

theorem getInfo_platform_emits (d : Driver) (platform : Nat)
    (hall : ∀ k c, (d k c).status = CL_SUCCESS) :
    ∃ m, Emits d 0 m (GetInfo.query_platform_info platform) () (platformTrace d platform) [] := by
  apply Exists.intro
  unfold GetInfo.query_platform_info platformTrace
  simp only [forLoop, clGetPlatformInfo, Prog.bind_eq, Prog.pure_eq]
  repeat (first
    | exact emits_printf _ _ _
    | exact emits_pure _ _ _
    | exact emits_return _ _ _
    | exact emits_malloc _ _ _
    | exact emits_uninitialised _ _ _ _
    | apply emits_call getInfo_check_apply hall
    | apply emits_bind)

set_option maxRecDepth 4000 in
theorem getInfo_device_emits (d : Driver) (device : Nat)
    (hall : ∀ k c, (d k c).status = CL_SUCCESS) :
    ∃ m, Emits d 0 m (GetInfo.query_device_info device) () (deviceTrace d device) [] := by
  apply Exists.intro
  unfold GetInfo.query_device_info deviceTrace
  simp only [forLoop, clGetDeviceInfo, Prog.bind_eq, Prog.pure_eq]
  repeat (first
    | exact emits_printf _ _ _
    | exact emits_pure _ _ _
    | exact emits_return _ _ _
    | exact emits_malloc _ _ _
    | exact emits_uninitialised _ _ _ _
    | apply emits_call getInfo_check_apply hall
    | (apply emits_ite <;> intro hc <;> simp only [hc, if_true, if_false])
    | apply emits_bind)

/-- The all-success run of `query_platform_info`. -/
theorem getInfo_platform_run (d : Driver) (platform : Nat)
    (hall : ∀ k c, (d k c).status = CL_SUCCESS) :
    run (GetInfo.query_platform_info platform) d = Result.ok () (platformTrace d platform) := by
  obtain ⟨m, h⟩ := getInfo_platform_emits d platform hall
  exact h.run_eq

/-- The all-success run of `query_device_info`. -/
theorem getInfo_device_run (d : Driver) (device : Nat)
    (hall : ∀ k c, (d k c).status = CL_SUCCESS) :
    run (GetInfo.query_device_info device) d = Result.ok () (deviceTrace d device) := by
  obtain ⟨m, h⟩ := getInfo_device_emits d device hall
  exact h.run_eq


/-! ## Helper lemmas for the claims -/

namespace CL

theorem knownCodes_eq : knownCodes = [0, -1, -2, -4, -5, -6, -13, -14, -30, -31, -32, -33, -34, -35, -36, -37, -38, -44,
       -45, -46, -47, -57, -59, -61, -64] := by
  decide

theorem okDriver_blocks : ∀ k size, (okDriver k (Call.malloc size)).handle ≠ 0 := by
  intro k size
  simp [okDriver]

theorem okDriver_all_ok : ∀ k c, (okDriver k c).status = CL_SUCCESS := by
  intro k c
  cases c with
  | clGetDeviceInfo device name size value size_ret =>
    simp only [okDriver]
    split_ifs <;> rfl
  | _ => rfl

theorem toInt32_of_isInt32 {v : Int} (h : isInt32 v) : toInt32 v = v := by
  obtain ⟨h1, h2⟩ := h
  unfold toInt32
  split <;> omega

end CL

theorem error_str_known :
    knownCodes.map OpenclUtils.opencl_error_to_str =
      ["CL_SUCCESS", "CL_DEVICE_NOT_FOUND", "CL_DEVICE_NOT_AVAILABLE",
       "CL_MEM_OBJECT_ALLOCATION_FAILURE", "CL_OUT_OF_RESOURCES", "CL_OUT_OF_HOST_MEMORY",
       "CL_MISALIGNED_SUB_BUFFER_OFFSET", "CL_EXEC_STATUS_ERROR_FOR_EVENTS_IN_WAIT_LIST",
       "CL_INVALID_VALUE", "CL_INVALID_DEVICE_TYPE", "CL_INVALID_PLATFORM",
       "CL_INVALID_DEVICE", "CL_INVALID_CONTEXT", "CL_INVALID_QUEUE_PROPERTIES",
       "CL_INVALID_COMMAND_QUEUE", "CL_INVALID_HOST_PTR", "CL_INVALID_MEM_OBJECT",
       "CL_INVALID_PROGRAM", "CL_INVALID_PROGRAM_EXECUTABLE", "CL_INVALID_KERNEL_NAME",
       "CL_INVALID_KERNEL_DEFINITION", "CL_INVALID_EVENT_WAIT_LIST",
       "CL_INVALID_OPERATION", "CL_INVALID_BUFFER_SIZE", "CL_INVALID_PROPERTY"] := by
  decide

theorem getInfo_error_str_eq : GetInfo.opencl_error_to_str = OpenclUtils.opencl_error_to_str :=
  rfl

theorem error_str_unknown (e : Int) (h : e ∉ knownCodes) :
    OpenclUtils.opencl_error_to_str e = "UNKOWN ERROR CODE" := by
  simp only [knownCodes, List.mem_cons, List.mem_singleton, not_or, List.not_mem_nil,
    not_false_eq_true, and_true] at h
  simp [OpenclUtils.opencl_error_to_str, h]

theorem error_str_inj :
    ∀ a ∈ knownCodes, ∀ b ∈ knownCodes,
      OpenclUtils.opencl_error_to_str a = OpenclUtils.opencl_error_to_str b → a = b := by
  decide

theorem error_str_ne_sentinel :
    ∀ a ∈ knownCodes, OpenclUtils.opencl_error_to_str a ≠ "UNKOWN ERROR CODE" := by
  decide

/-! ## The claims -/

/-- C1: `opencl_error_to_str` (both copies) is defined on every status code; on
the 25 codes of its `switch` (0, -1, -2, -4, -5, -6, -13, -14, -30 to -38, -44
to -47, -57, -59, -61, -64) it returns the identifier of the code, and on every
other code it returns the sentinel `"UNKOWN ERROR CODE"`. -/
theorem opencl_error_to_str_total :
    knownCodes = [0, -1, -2, -4, -5, -6, -13, -14, -30, -31, -32, -33, -34, -35, -36, -37, -38, -44,
       -45, -46, -47, -57, -59, -61, -64] ∧
    knownCodes.map OpenclUtils.opencl_error_to_str =
      ["CL_SUCCESS", "CL_DEVICE_NOT_FOUND", "CL_DEVICE_NOT_AVAILABLE",
       "CL_MEM_OBJECT_ALLOCATION_FAILURE", "CL_OUT_OF_RESOURCES", "CL_OUT_OF_HOST_MEMORY",
       "CL_MISALIGNED_SUB_BUFFER_OFFSET", "CL_EXEC_STATUS_ERROR_FOR_EVENTS_IN_WAIT_LIST",
       "CL_INVALID_VALUE", "CL_INVALID_DEVICE_TYPE", "CL_INVALID_PLATFORM",
       "CL_INVALID_DEVICE", "CL_INVALID_CONTEXT", "CL_INVALID_QUEUE_PROPERTIES",
       "CL_INVALID_COMMAND_QUEUE", "CL_INVALID_HOST_PTR", "CL_INVALID_MEM_OBJECT",
       "CL_INVALID_PROGRAM", "CL_INVALID_PROGRAM_EXECUTABLE", "CL_INVALID_KERNEL_NAME",
       "CL_INVALID_KERNEL_DEFINITION", "CL_INVALID_EVENT_WAIT_LIST",
       "CL_INVALID_OPERATION", "CL_INVALID_BUFFER_SIZE", "CL_INVALID_PROPERTY"] ∧
    knownCodes.map GetInfo.opencl_error_to_str = knownCodes.map OpenclUtils.opencl_error_to_str ∧
    (∀ e : Int, e ∈ knownCodes ∨ OpenclUtils.opencl_error_to_str e = "UNKOWN ERROR CODE") ∧
    (∀ e : Int, e ∈ knownCodes ∨ GetInfo.opencl_error_to_str e = "UNKOWN ERROR CODE") := by
  refine ⟨knownCodes_eq, error_str_known, by rw [getInfo_error_str_eq], ?_, ?_⟩
  · intro e
    by_cases h : e ∈ knownCodes
    · exact Or.inl h
    · exact Or.inr (error_str_unknown e h)
  · intro e
    rw [getInfo_error_str_eq]
    by_cases h : e ∈ knownCodes
    · exact Or.inl h
    · exact Or.inr (error_str_unknown e h)

/-- C2: the names are unique: two known codes with the same name are the same
code, and the name of a known code is never the string returned for a code
outside the known set. -/
theorem opencl_error_to_str_unique (a b e : Int) (ha : a ∈ knownCodes) (hb : b ∈ knownCodes)
    (he : e ∉ knownCodes) :
    (OpenclUtils.opencl_error_to_str a = OpenclUtils.opencl_error_to_str b → a = b) ∧
    OpenclUtils.opencl_error_to_str a ≠ OpenclUtils.opencl_error_to_str e ∧
    OpenclUtils.opencl_error_to_str a ≠ "UNKOWN ERROR CODE" := by
  refine ⟨error_str_inj a ha b hb, ?_, error_str_ne_sentinel a ha⟩
  rw [error_str_unknown e he]
  exact error_str_ne_sentinel a ha

/-- Witness of C2 at the codes -1, -30 and the unknown code 7. -/
theorem opencl_error_to_str_unique_witness :
    (OpenclUtils.opencl_error_to_str (-1) = OpenclUtils.opencl_error_to_str (-30) →
      (-1 : Int) = -30) ∧
    OpenclUtils.opencl_error_to_str (-1) ≠ OpenclUtils.opencl_error_to_str 7 ∧
    OpenclUtils.opencl_error_to_str (-1) ≠ "UNKOWN ERROR CODE" :=
  opencl_error_to_str_unique (-1) (-30) 7 (by decide) (by decide) (by decide)

set_option maxRecDepth 100000 in
/-- C9, counterexample to the claim as stated: under `noMemoryDriver` every one
of the 25 queries of the device report succeeds, but the name size call
announces 2^62 bytes, `malloc` returns `NULL` and the fetch call is made with
that size and a null buffer, not with a buffer of the discovered size. -/
theorem OpenclUtils.device_queries_no_memory :
    (run (OpenclUtils.query_device_info 1) noMemoryDriver).returned = true ∧
    (callsOf (run (OpenclUtils.query_device_info 1) noMemoryDriver).trace).length = 25 ∧
    (∀ ca ∈ callsOf (run (OpenclUtils.query_device_info 1) noMemoryDriver).trace,
      ca.2.status = CL_SUCCESS) ∧
    (callsOf (run (OpenclUtils.query_device_info 1) noMemoryDriver).trace).get? 0 =
      some (Call.clGetDeviceInfo 1 CL_DEVICE_NAME 0 none true,
        ⟨CL_SUCCESS, 4611686018427387904, [], 0⟩) ∧
    (callsOf (run (OpenclUtils.query_device_info 1) noMemoryDriver).trace).get? 1 =
      some (Call.clGetDeviceInfo 1 CL_DEVICE_NAME 4611686018427387904 none false,
        ⟨CL_SUCCESS, 4611686018427387904, [], 0⟩) := by
  decide!

/-- C9, amended: when every query succeeds and every `malloc` returns a block,
`query_device_info` makes exactly 25 `clGetDeviceInfo` calls in a fixed order:
a size call (size 0, null buffer) and a fetch call (buffer of the returned
size) for each of name, version, driver version, profile, extensions, then
one fixed-size fetch each for the global-memory cache size (8 bytes), cache
type (4), cache line size (4), max constant buffer size (8), max constant
args (4), local memory size (8), local memory type (4), max work-group size
(8), max work-item sizes (24: three size values), max work-item dimensions
(4), address bits (4), max allocation size (8), max parameter size (8),
little-endian flag (4), image-support flag (4).  No diagnostic is written,
`exit` is not called and the function returns. -/
theorem OpenclUtils.device_queries (d : Driver) (device : Nat)
    (hall : ∀ k c, (d k c).status = CL_SUCCESS)
    (hmalloc : ∀ k size, (d k (Call.malloc size)).handle ≠ 0) :
    let q0 := Call.clGetDeviceInfo device CL_DEVICE_NAME 0 none true
    let n0 := toUInt64 (d 0 q0).size_ret
    let f0 := Call.clGetDeviceInfo device CL_DEVICE_NAME n0 (some n0) false
    let q1 := Call.clGetDeviceInfo device CL_DEVICE_VERSION 0 none true
    let n1 := toUInt64 (d 2 q1).size_ret
    let f1 := Call.clGetDeviceInfo device CL_DEVICE_VERSION n1 (some n1) false
    let q2 := Call.clGetDeviceInfo device CL_DRIVER_VERSION 0 none true
    let n2 := toUInt64 (d 4 q2).size_ret
    let f2 := Call.clGetDeviceInfo device CL_DRIVER_VERSION n2 (some n2) false
    let q3 := Call.clGetDeviceInfo device CL_DEVICE_PROFILE 0 none true
    let n3 := toUInt64 (d 6 q3).size_ret
    let f3 := Call.clGetDeviceInfo device CL_DEVICE_PROFILE n3 (some n3) false
    let q4 := Call.clGetDeviceInfo device CL_DEVICE_EXTENSIONS 0 none true
    let n4 := toUInt64 (d 8 q4).size_ret
    let f4 := Call.clGetDeviceInfo device CL_DEVICE_EXTENSIONS n4 (some n4) false
    let r := run (OpenclUtils.query_device_info device) d
    r.returned = true ∧
    (callsOf r.trace).map Prod.fst =
      [q0,
       f0,
       q1,
       f1,
       q2,
       f2,
       q3,
       f3,
       q4,
       f4,
       Call.clGetDeviceInfo device CL_DEVICE_GLOBAL_MEM_CACHE_SIZE 8 (some 8) false,
       Call.clGetDeviceInfo device CL_DEVICE_GLOBAL_MEM_CACHE_TYPE 4 (some 4) false,
       Call.clGetDeviceInfo device CL_DEVICE_GLOBAL_MEM_CACHELINE_SIZE 4 (some 4) false,
       Call.clGetDeviceInfo device CL_DEVICE_MAX_CONSTANT_BUFFER_SIZE 8 (some 8) false,
       Call.clGetDeviceInfo device CL_DEVICE_MAX_CONSTANT_ARGS 4 (some 4) false,
       Call.clGetDeviceInfo device CL_DEVICE_LOCAL_MEM_SIZE 8 (some 8) false,
       Call.clGetDeviceInfo device CL_DEVICE_LOCAL_MEM_TYPE 4 (some 4) false,
       Call.clGetDeviceInfo device CL_DEVICE_MAX_WORK_GROUP_SIZE 8 (some 8) false,
       Call.clGetDeviceInfo device CL_DEVICE_MAX_WORK_ITEM_SIZES 24 (some 24) false,
       Call.clGetDeviceInfo device CL_DEVICE_MAX_WORK_ITEM_DIMENSIONS 4 (some 4) false,
       Call.clGetDeviceInfo device CL_DEVICE_ADDRESS_BITS 4 (some 4) false,
       Call.clGetDeviceInfo device CL_DEVICE_MAX_MEM_ALLOC_SIZE 8 (some 8) false,
       Call.clGetDeviceInfo device CL_DEVICE_MAX_PARAMETER_SIZE 8 (some 8) false,
       Call.clGetDeviceInfo device CL_DEVICE_ENDIAN_LITTLE 4 (some 4) false,
       Call.clGetDeviceInfo device CL_DEVICE_IMAGE_SUPPORT 4 (some 4) false] ∧
    (callsOf r.trace).length = 25 ∧
    stderrOf r.trace = [] ∧ exitsOf r.trace = [] := by
  intro q0 n0 f0 q1 n1 f1 q2 n2 f2 q3 n3 f3 q4 n4 f4 r
  have hb : ∀ k size, (if (d k (Call.malloc size)).handle = 0 then none else some size) =
      some size := fun k size => if_neg (hmalloc k size)
  have hr : r = Result.ok () (deviceTrace d device) :=
    openclUtils_device_run d device hall
  rw [hr]
  refine ⟨rfl, ?_, rfl, rfl, rfl⟩
  simp only [deviceTrace, hb]
  rfl

/-- Witness of C9 amended: under `okDriver` the device report makes 25 calls. -/
theorem OpenclUtils.device_queries_witness :
    (callsOf (run (OpenclUtils.query_device_info 1) okDriver).trace).length = 25 :=
  (OpenclUtils.device_queries okDriver 1 okDriver_all_ok okDriver_blocks).2.2.1

/-- C3: the fail-fast protocol of `CHECK_STATUS` in `query_platform_info` and
`query_device_info`, for every driver `d`.  The all-success run (the run under
`succeed d`) returns with only successful calls and output on standard output.
If every status of the run under `d` is `CL_SUCCESS`, the checks write
nothing and the run is the all-success run.  If the `k`-th call (from 0) of the
run under `d` has a status other than `CL_SUCCESS`, the run makes exactly
`k + 1` calls, all earlier ones successful; the run is what the all-success run
does before that call, then the call, one diagnostic on standard error with
the file name, the line of that call's check and `opencl_error_to_str` of the
status, then `exit(0)`; its standard output is that of the all-success run
before that call. -/
theorem OpenclUtils.fail_fast (d : Driver) (platform device : Nat) :
    ((run (OpenclUtils.query_platform_info platform) (succeed d)).returned = true ∧
      (∀ ca ∈ callsOf (run (OpenclUtils.query_platform_info platform) (succeed d)).trace,
        ca.2.status = CL_SUCCESS) ∧
      stderrOf (run (OpenclUtils.query_platform_info platform) (succeed d)).trace = [] ∧
      exitsOf (run (OpenclUtils.query_platform_info platform) (succeed d)).trace = [] ∧
      FailFast OpenclUtils.FILE OpenclUtils.opencl_error_to_str
        [97, 102, 97, 102, 97, 102, 97, 102, 97, 102]
        (run (OpenclUtils.query_platform_info platform) d).trace
        (run (OpenclUtils.query_platform_info platform) (succeed d)).trace) ∧
    ((run (OpenclUtils.query_device_info device) (succeed d)).returned = true ∧
      (∀ ca ∈ callsOf (run (OpenclUtils.query_device_info device) (succeed d)).trace,
        ca.2.status = CL_SUCCESS) ∧
      stderrOf (run (OpenclUtils.query_device_info device) (succeed d)).trace = [] ∧
      exitsOf (run (OpenclUtils.query_device_info device) (succeed d)).trace = [] ∧
      FailFast OpenclUtils.FILE OpenclUtils.opencl_error_to_str
        [146, 151, 146, 151, 146, 151, 146, 151, 146, 151, 165, 170, 184, 191, 195, 202, 207,
          220, 226, 231, 235, 239, 243, 248, 257]
        (run (OpenclUtils.query_device_info device) d).trace
        (run (OpenclUtils.query_device_info device) (succeed d)).trace) := by
  constructor
  · obtain ⟨m, h⟩ := openclUtils_platform_walks d platform
    obtain ⟨hl, hc, hr⟩ := walks_run_lockstep h
    exact ⟨hr, hc.calls_ok, hc.stderr_nil, hc.exits_nil, failFast_of_lockstep hl hc⟩
  · obtain ⟨m, h⟩ := openclUtils_device_walks d device
    obtain ⟨hl, hc, hr⟩ := walks_run_lockstep h
    exact ⟨hr, hc.calls_ok, hc.stderr_nil, hc.exits_nil, failFast_of_lockstep hl hc⟩

set_option maxRecDepth 100000 in
/-- Witness of C3: under `cacheTypeFailDriver` the twelfth call of the device
report fails with `CL_INVALID_VALUE`; the run makes 12 calls, writes the
diagnostic for line 170 and calls `exit(0)`; under `okDriver` nothing is
written to standard error. -/
theorem OpenclUtils.fail_fast_witness :
    (callsOf (run (OpenclUtils.query_device_info 1) cacheTypeFailDriver).trace).length = 12 ∧
    stderrOf (run (OpenclUtils.query_device_info 1) cacheTypeFailDriver).trace =
      ["OpenCL error in file opencl_utils.c line 170, error code CL_INVALID_VALUE\n"] ∧
    exitsOf (run (OpenclUtils.query_device_info 1) cacheTypeFailDriver).trace = [0] ∧
    stderrOf (run (OpenclUtils.query_device_info 1) okDriver).trace = [] :=
  have h := (OpenclUtils.fail_fast cacheTypeFailDriver 1 1).2.2.2.2.2.2 11
    (Call.clGetDeviceInfo 1 CL_DEVICE_GLOBAL_MEM_CACHE_TYPE 4 (some 4) false)
    ⟨CL_INVALID_VALUE, 0, [], 0⟩ (by decide!) (by decide)
  ⟨h.1, h.2.2.2.2.1.trans (by decide!), h.2.2.2.2.2,
    ((OpenclUtils.fail_fast okDriver 1 1).2.2.2.2.2.1 (by decide!)).2.1⟩

/-- The runs of the two copies of `query_platform_info` agree up to the site
named in a diagnostic. -/
theorem platform_traces_agree (d : Driver) (platform : Nat) :
    SameUpToSite GetInfo.FILE OpenclUtils.FILE
      (run (GetInfo.query_platform_info platform) d).trace
      (run (OpenclUtils.query_platform_info platform) d).trace := by
  have hall : ∀ k c, (succeed d k c).status = CL_SUCCESS := fun _ _ => rfl
  obtain ⟨m1, h1⟩ := getInfo_platform_walks d platform
  obtain ⟨m2, h2⟩ := openclUtils_platform_walks d platform
  have l1 := (walks_run_lockstep h1).1
  have l2 := (walks_run_lockstep h2).1
  rw [getInfo_platform_run (succeed d) platform hall, getInfo_error_str_eq] at l1
  rw [openclUtils_platform_run (succeed d) platform hall] at l2
  exact sameUpToSite_of_lockstep l1 l2

/-- The runs of the two copies of `query_device_info` agree up to the site named
in a diagnostic. -/
theorem device_traces_agree (d : Driver) (device : Nat) :
    SameUpToSite GetInfo.FILE OpenclUtils.FILE
      (run (GetInfo.query_device_info device) d).trace
      (run (OpenclUtils.query_device_info device) d).trace := by
  have hall : ∀ k c, (succeed d k c).status = CL_SUCCESS := fun _ _ => rfl
  obtain ⟨m1, h1⟩ := getInfo_device_walks d device
  obtain ⟨m2, h2⟩ := openclUtils_device_walks d device
  have l1 := (walks_run_lockstep h1).1
  have l2 := (walks_run_lockstep h2).1
  rw [getInfo_device_run (succeed d) device hall, getInfo_error_str_eq] at l1
  rw [openclUtils_device_run (succeed d) device hall] at l2
  exact sameUpToSite_of_lockstep l1 l2

set_option maxRecDepth 100000 in
/-- C6 (evaluation of the code): `NDrange` is an array of three pointers and
each is printed with `%d`, so what is printed is the low 32 bits of each stored
size, read as a signed `int`.  Under `okDriver` the sizes (256, 256, 64) are
printed as `256 , 256, 64`; under `wideDriver` the sizes (2147483648, 1, 1) are
printed as `-2147483648 , 1, 1` by both copies, and the line with the sizes
themselves is not printed. -/
theorem device_work_item_sizes_wide :
    (stdoutOf (run (OpenclUtils.query_device_info 1) okDriver).trace).get? 18 =
      some "\n\tMaximum Work-item Sizes: 256 , 256, 64\n" ∧
    (callsOf (run (OpenclUtils.query_device_info 1) wideDriver).trace).get? 18 =
      some (Call.clGetDeviceInfo 1 CL_DEVICE_MAX_WORK_ITEM_SIZES 24 (some 24) false,
        ⟨CL_SUCCESS, 24, [2147483648, 1, 1], 0⟩) ∧
    (stdoutOf (run (OpenclUtils.query_device_info 1) wideDriver).trace).get? 18 =
      some "\n\tMaximum Work-item Sizes: -2147483648 , 1, 1\n" ∧
    (stdoutOf (run (GetInfo.query_device_info 1) wideDriver).trace).get? 18 =
      some "\n\tMaximum Work-item Sizes: -2147483648 , 1, 1\n" ∧
    "\n\tMaximum Work-item Sizes: 2147483648 , 1, 1\n" ∉
      stdoutOf (run (OpenclUtils.query_device_info 1) wideDriver).trace := by
  decide!

set_option maxRecDepth 100000 in
/-- C7 (evaluation of the code): in `main`, the checks after `clCreateContext`
and `clCreateCommandQueue` test `err`, which still holds the status of
`clGetDeviceIDs`.  Under `contextFailDriver` the context creation (call 37)
returns `CL_OUT_OF_HOST_MEMORY`, yet `main` goes on to call
`clCreateCommandQueue`, writes no diagnostic, does not call `exit` and returns
0; under `queueFailDriver` the failure of the queue creation goes unreported
in the same way. -/
theorem main_creation_unchecked :
    (callsOf (run GetInfo.main contextFailDriver).trace).drop 37 =
      [(Call.clCreateContext false 1 [1] false false true, ⟨CL_OUT_OF_HOST_MEMORY, 0, [], 0⟩),
       (Call.clCreateCommandQueue 0 1 0 true, ⟨CL_SUCCESS, 1, [1], 1⟩)] ∧
    stderrOf (run GetInfo.main contextFailDriver).trace = [] ∧
    exitsOf (run GetInfo.main contextFailDriver).trace = [] ∧
    (run GetInfo.main contextFailDriver).returned = true ∧
    (callsOf (run GetInfo.main queueFailDriver).trace).drop 37 =
      [(Call.clCreateContext false 1 [1] false false true, ⟨CL_SUCCESS, 1, [1], 1⟩),
       (Call.clCreateCommandQueue 1 1 0 true, ⟨CL_INVALID_DEVICE, 0, [], 0⟩)] ∧
    stderrOf (run GetInfo.main queueFailDriver).trace = [] ∧
    exitsOf (run GetInfo.main queueFailDriver).trace = [] ∧
    (run GetInfo.main queueFailDriver).returned = true := by
  decide!

/-- C8: `perf_event_open` makes exactly one system call, with the number
`__NR_perf_event_open` and its five arguments unchanged and in order, and for
every value `r` the system call returns, a descriptor or the failure
indication -1 (both in the range of `int`), it returns exactly `r`: the
storage in `int ret` does not alter it. -/
theorem PerformanceTools.perf_event_open_raw (NR : Nat)
    (kernel : PerformanceTools.Syscall → Int) (hw_event : Nat) (pid cpu group_fd : Int)
    (flags : Nat) (hr : isInt32 (kernel ⟨NR, hw_event, pid, cpu, group_fd, flags⟩)) :
    (PerformanceTools.perf_event_open NR kernel hw_event pid cpu group_fd flags).1 =
      [⟨NR, hw_event, pid, cpu, group_fd, flags⟩] ∧
    (PerformanceTools.perf_event_open NR kernel hw_event pid cpu group_fd flags).2 =
      kernel ⟨NR, hw_event, pid, cpu, group_fd, flags⟩ :=
  ⟨rfl, toInt32_of_isInt32 hr⟩

/-- Witness of C8: a kernel that answers -1 (failure). -/
theorem PerformanceTools.perf_event_open_raw_witness :
    isInt32 (-1) ∧
    (PerformanceTools.perf_event_open 298 (fun _ => -1) 0 0 (-1) (-1) 0).1 =
      [⟨298, 0, 0, -1, -1, 0⟩] ∧
    (PerformanceTools.perf_event_open 298 (fun _ => -1) 0 0 (-1) (-1) 0).2 = -1 :=
  ⟨by decide, PerformanceTools.perf_event_open_raw 298 (fun _ => -1) 0 0 (-1) (-1) 0 (by decide)⟩

/-- C10: the two copies of the reporting code behave alike.  The two
`opencl_error_to_str` agree on every status code, and for every driver the
runs of the two `query_platform_info` and of the two `query_device_info` agree
event by event, except that a diagnostic names the file and line of its own
copy; in particular they make the same calls and write the same standard
output. -/
theorem copies_agree (d : Driver) (platform device : Nat) :
    (∀ e : Int, GetInfo.opencl_error_to_str e = OpenclUtils.opencl_error_to_str e) ∧
    SameUpToSite GetInfo.FILE OpenclUtils.FILE
      (run (GetInfo.query_platform_info platform) d).trace
      (run (OpenclUtils.query_platform_info platform) d).trace ∧
    callsOf (run (GetInfo.query_platform_info platform) d).trace =
      callsOf (run (OpenclUtils.query_platform_info platform) d).trace ∧
    stdoutText (run (GetInfo.query_platform_info platform) d).trace =
      stdoutText (run (OpenclUtils.query_platform_info platform) d).trace ∧
    SameUpToSite GetInfo.FILE OpenclUtils.FILE
      (run (GetInfo.query_device_info device) d).trace
      (run (OpenclUtils.query_device_info device) d).trace ∧
    callsOf (run (GetInfo.query_device_info device) d).trace =
      callsOf (run (OpenclUtils.query_device_info device) d).trace ∧
    stdoutText (run (GetInfo.query_device_info device) d).trace =
      stdoutText (run (OpenclUtils.query_device_info device) d).trace := by
  have hp := platform_traces_agree d platform
  have hd := device_traces_agree d device
  refine ⟨fun e => by rw [getInfo_error_str_eq], hp, hp.calls_eq, ?_, hd, hd.calls_eq, ?_⟩
  · unfold stdoutText; rw [hp.stdout_eq]
  · unfold stdoutText; rw [hd.stdout_eq]
